import Mathlib

/-!
Verification of the simulation kernel of the snake game in this repository.
The definitions below are a shallow embedding of the game logic found in the
first (most complete) version of the `Game` component: grid arithmetic
(`wrap`), collision testing (`checkCollision`), item placement (`placeItem`,
modelled with an explicit random-sample stream and fuel, since the source
loops on `Math.random()`), keyboard intent acceptance (`handleInput`),
and the per-move-tick portion of `update`, split into the player-1 phase,
the player-2 phase, the chaser ("pacman") AI phase and the game-over phase.
JS numbers are modelled as `Int` (all quantities in the move logic are
integers except the move intervals, which are modelled as `ℚ` since the
source computes `base / 2` and `base * 1.5`).
-/

namespace SnakeGame

/-- Grid cell / vector, the `Point` type `{ x, y }` of the source. -/
structure Point where
  x : Int
  y : Int
deriving DecidableEq, Repr

/-- `const CELL_SIZE = 20`. -/
def CELL_SIZE : Int := 20

/-- `const CANVAS_WIDTH = 600`. -/
def CANVAS_WIDTH : Int := 600

/-- `const CANVAS_HEIGHT = 400`. -/
def CANVAS_HEIGHT : Int := 400

/-- `const COLS = CANVAS_WIDTH / CELL_SIZE` (= 30). -/
def COLS : Int := CANVAS_WIDTH / CELL_SIZE

/-- `const ROWS = CANVAS_HEIGHT / CELL_SIZE` (= 20). -/
def ROWS : Int := CANVAS_HEIGHT / CELL_SIZE

/-- `const FREEZE_DURATION = 150`. -/
def FREEZE_DURATION : Int := 150

/-- `const SPEED_BOOST_DURATION = 200`. -/
def SPEED_BOOST_DURATION : Int := 200

/-- `const GHOST_DURATION = 200`. -/
def GHOST_DURATION : Int := 200

/-- The source's `wrap`:
`if (val < 0) return max - 1; if (val >= max) return 0; return val;`. -/
def wrap (val lim : Int) : Int :=
  if val < 0 then lim - 1
  else if lim ≤ val then 0
  else val

/-- `Math.abs` on integers. -/
def jsAbs (d : Int) : Int := if d < 0 then -d else d

/-- The toroidal shortest-displacement computation inlined in the chaser AI:
`let d = b - a; if (Math.abs(d) > limit / 2) d = d > 0 ? d - limit : d + limit;`.
The test `|d| > limit / 2` is JS real division; for integers it is
equivalent to `2 * |d| > limit`. -/
def toroidalDelta (a b limit : Int) : Int :=
  let d := b - a
  if 2 * jsAbs d > limit then (if 0 < d then d - limit else d + limit) else d

/-- The source's `checkCollision(head, body)`: true iff `head` has the same
coordinates as some element of `body`. -/
def checkCollision (head : Point) (body : List Point) : Bool :=
  body.any fun part => head.x == part.x && head.y == part.y

/-- One sample of `{ x: Math.floor(Math.random() * COLS), y: Math.floor(Math.random() * ROWS) }`:
the random source is modelled as a stream `r` of natural-number pairs, reduced
into the grid ranges `[0, COLS) × [0, ROWS)`. -/
def sampleCell (r : ℕ → ℕ × ℕ) (i : ℕ) : Point :=
  ⟨((r i).1 : Int) % COLS, ((r i).2 : Int) % ROWS⟩

/-- The source's `placeItem(exclude)`: a `while (!valid)` loop that samples a
random cell and retries as long as the sample coincides with an element of
`exclude`. The loop is modelled with a sample stream `r`, a starting sample
index `i` and a fuel bound: `none` means the loop has not returned within
`fuel` iterations (the source has no escape — it simply keeps looping). -/
def placeItemFuel (r : ℕ → ℕ × ℕ) (exclude : List Point) : ℕ → ℕ → Option (Point × ℕ)
  | _, 0 => none
  | i, fuel + 1 =>
    let p := sampleCell r i
    if checkCollision p exclude then placeItemFuel r exclude (i + 1) fuel
    else some (p, i + 1)

/-- Every cell of the 30 × 20 grid, as an exclusion list. -/
def fullGrid : List Point :=
  (List.range 30).flatMap fun x => (List.range 20).map fun y => ⟨(x : Int), (y : Int)⟩

/-- The `while` loop of `placeItem` runs forever on `exclude`: no finite
number of iterations returns, whatever the random samples are. -/
def placeItemDiverges (exclude : List Point) : Prop :=
  ∀ (r : ℕ → ℕ × ℕ) (i fuel : ℕ), placeItemFuel r exclude i fuel = none

/-- The direction opposite to `p`. -/
def opposite (p : Point) : Point := ⟨-p.x, -p.y⟩

/-- Intent acceptance of `handleInput`: the arrow-key handlers are
`if (k === up/down && dir.y === 0) …` and `if (k === left/right && dir.x === 0) …`,
i.e. a vertical intent is accepted iff the committed direction is horizontal
and a horizontal intent iff the committed direction is vertical. -/
def accepts (committed intent : Point) : Prop :=
  if intent.x = 0 then committed.y = 0 else committed.x = 0

instance (committed intent : Point) : Decidable (accepts committed intent) := by
  unfold accepts
  infer_instance

/-- One `handleInput` key event: the pending direction (`nextDir`) becomes the
intent when the intent is accepted against the committed direction (`dir`),
and is left unchanged otherwise. -/
def submitIntent (committed pending intent : Point) : Point :=
  if accepts committed intent then intent else pending

/-- The four unit directions produced by the key handlers. -/
def isUnitDir (p : Point) : Prop :=
  p = ⟨0, -1⟩ ∨ p = ⟨0, 1⟩ ∨ p = ⟨-1, 0⟩ ∨ p = ⟨1, 0⟩

instance (p : Point) : Decidable (isUnitDir p) := by
  unfold isUnitDir
  infer_instance

/-- `enum PowerupType { FREEZE, SPEED, SLOW, GHOST, SHRINK }`. -/
inductive PowerupType where
  | FREEZE | SPEED | SLOW | GHOST | SHRINK
deriving DecidableEq, Repr

/-- `Powerup = { x, y, type }` (the source spreads a `Point` and adds `type`). -/
structure Powerup where
  x : Int
  y : Int
  type : PowerupType
deriving DecidableEq, Repr

/-- `enum GameMode { PVC, PVP }` — single player vs pacman, or two players. -/
inductive GameMode where
  | PVC | PVP
deriving DecidableEq, Repr

/-- Discrete per-tick events, modelling the sound/particle emissions of the
source at the corresponding sites (`playSound('eat')` on food and on eating a
frozen pacman, `playSound('powerup')`, `playSound('pacman')`). -/
inductive GEvent where
  | foodEaten1 | foodEaten2
  | powerupCollected1 (t : PowerupType) | powerupCollected2 (t : PowerupType)
  | agentConsumed | chaserAteFood
deriving DecidableEq, Repr

/-- The mutable refs of the game loop that the move logic reads and writes
(entities, directions, timers, scores), plus the per-tick local death flags
`p1Dead` / `p2Dead` and the game-over transition, recorded so that tick
outcomes are observable. -/
structure GameState where
  mode : GameMode
  snake1 : List Point
  dir1 : Point
  nextDir1 : Point
  snake2 : List Point
  dir2 : Point
  nextDir2 : Point
  food : Point
  powerup : Option Powerup
  pacman : Option Point
  pacmanFrozen : Int
  speedBoostTimer : Int
  ghostTimer : Int
  moveInterval : ℚ
  baseMoveInterval : Int
  pacmanMoveTick : Int
  scoreP1 : Int
  scoreP2 : Int
  scorePacman : Int
  deadP1 : Bool
  deadP2 : Bool
  gameOver : Bool
  events : List GEvent
deriving DecidableEq

/-- The random sources consumed during one move tick: `cells` feeds the
`placeItem` sampling loop, `spawnRoll` is `Math.random() < 0.2` for the
powerup spawn, `ptype` the random type chosen in `placePowerup`, and `coin`
the `Math.random() > 0.5` tie-break in the chaser AI. -/
structure Rand where
  cells : ℕ → ℕ × ℕ
  spawnRoll : Bool
  ptype : PowerupType
  coin : Bool

/-- `head + dir`, wrapped: `{ x: wrap(nextX, COLS), y: wrap(nextY, ROWS) }`. -/
def nextHead (p d : Point) : Point :=
  ⟨wrap (p.x + d.x) COLS, wrap (p.y + d.y) ROWS⟩

/-- The position list of the optional powerup, as pushed onto exclusion
lists by `if (powerup.current) exclude.push(powerup.current)`. -/
def puList : Option Powerup → List Point
  | none => []
  | some pu => [⟨pu.x, pu.y⟩]

/-- `head.x === powerup.x && head.y === powerup.y` for the optional powerup. -/
def powerupAt : Option Powerup → Point → Bool
  | none, _ => false
  | some pu, p => p.x == pu.x && p.y == pu.y

/-- The `increaseSpeed` closure run when a snake eats food:
`baseMoveInterval = max(60, base - 1); if (speedBoostTimer === 0) moveInterval = base`. -/
def increaseSpeed (s : GameState) : GameState :=
  let base := max 60 (s.baseMoveInterval - 1)
  { s with baseMoveInterval := base,
           moveInterval := if s.speedBoostTimer = 0 then (base : ℚ) else s.moveInterval }

/-- The `switch (powerup.type)` effect application when player 1 collects a
powerup (`1.5` is modelled as the exact rational `3/2`). -/
def applyPowerup1 (pu : Powerup) (s : GameState) : GameState :=
  match pu.type with
  | .FREEZE => { s with pacmanFrozen := FREEZE_DURATION }
  | .SPEED => { s with speedBoostTimer := SPEED_BOOST_DURATION,
                       moveInterval := max 30 ((s.baseMoveInterval : ℚ) / 2) }
  | .SLOW => { s with speedBoostTimer := SPEED_BOOST_DURATION,
                      moveInterval := min 300 ((s.baseMoveInterval : ℚ) * (3 / 2 : ℚ)) }
  | .GHOST => { s with ghostTimer := GHOST_DURATION }
  | .SHRINK =>
      if 3 < s.snake1.length then
        { s with snake1 := s.snake1.take (max 3 (s.snake1.length / 2)) }
      else s

/-- The same `switch`, for player 2 (identical except `SHRINK` acts on
`snake2`). -/
def applyPowerup2 (pu : Powerup) (s : GameState) : GameState :=
  match pu.type with
  | .FREEZE => { s with pacmanFrozen := FREEZE_DURATION }
  | .SPEED => { s with speedBoostTimer := SPEED_BOOST_DURATION,
                       moveInterval := max 30 ((s.baseMoveInterval : ℚ) / 2) }
  | .SLOW => { s with speedBoostTimer := SPEED_BOOST_DURATION,
                      moveInterval := min 300 ((s.baseMoveInterval : ℚ) * (3 / 2 : ℚ)) }
  | .GHOST => { s with ghostTimer := GHOST_DURATION }
  | .SHRINK =>
      if 3 < s.snake2.length then
        { s with snake2 := s.snake2.take (max 3 (s.snake2.length / 2)) }
      else s

/-- Player 1's part of the move tick (`// --- Move P1 ---` through the body
update): the ghost-gated collision checks against both bodies, the pacman
interaction (eat the frozen pacman, or die on a non-frozen one), and the
body commit — push the new head, then relocate food / collect the powerup /
pop the tail. `head1` is the already-computed wrapped next head; `i` is the
current index into the random cell stream. `none` propagates a `placeItem`
call that never returned. -/
def phaseP1 (r : Rand) (fuel : ℕ) (head1 : Point) (s : GameState) (i : ℕ) :
    Option (GameState × ℕ) :=
  let d1 := if s.ghostTimer = 0 then
      checkCollision head1 s.snake1 || checkCollision head1 s.snake2
    else false
  let pacStep : Option (GameState × ℕ × Bool × Bool) :=
    match s.pacman with
    | some pm =>
      if s.mode = GameMode.PVC ∧ head1 = pm then
        if 0 < s.pacmanFrozen then
          (placeItemFuel r.cells (s.snake1 ++ [s.food] ++ puList s.powerup) i fuel).map
            fun pr => ({ s with scoreP1 := s.scoreP1 + 5,
                                pacman := some pr.1,
                                pacmanFrozen := 0,
                                events := s.events ++ [GEvent.agentConsumed] }, pr.2, d1, true)
        else some (s, i, true, false)
      else some (s, i, d1, false)
    | none => some (s, i, d1, false)
  pacStep.bind fun q =>
    let s := q.1
    let i := q.2.1
    let dead := q.2.2.1
    let eaten := q.2.2.2
    if dead then some ({ s with deadP1 := true }, i)
    else
      let s := { s with snake1 := head1 :: s.snake1 }
      if head1 = s.food then
        let s := increaseSpeed { s with scoreP1 := s.scoreP1 + 1,
                                        events := s.events ++ [GEvent.foodEaten1] }
        (placeItemFuel r.cells (s.snake1 ++ s.snake2 ++ puList s.powerup) i fuel).bind
          fun fr =>
            let s := { s with food := fr.1 }
            if s.powerup = none ∧ r.spawnRoll then
              (placeItemFuel r.cells (s.snake1 ++ s.snake2 ++ [fr.1]) fr.2 fuel).map
                fun pr => ({ s with powerup := some ⟨pr.1.x, pr.1.y, r.ptype⟩ }, pr.2)
            else some (s, fr.2)
      else
        match s.powerup with
        | some pu =>
          if head1.x = pu.x ∧ head1.y = pu.y then
            let s := applyPowerup1 pu
              { s with scoreP1 := s.scoreP1 + 5,
                       events := s.events ++ [GEvent.powerupCollected1 pu.type] }
            some ({ s with powerup := none }, i)
          else if eaten then some (s, i)
          else some ({ s with snake1 := s.snake1.dropLast }, i)
        | none =>
          if eaten then some (s, i)
          else some ({ s with snake1 := s.snake1.dropLast }, i)

/-- Player 2's part of the move tick (`// --- Move P2 ---`), run only in
two-player mode: the ghost-gated collision checks — including the
head-to-head test against `head1`, which marks both players dead — and the
body commit. -/
def phaseP2 (r : Rand) (fuel : ℕ) (head1 : Point) (s : GameState) (i : ℕ) :
    Option (GameState × ℕ) :=
  if s.mode = GameMode.PVP then
    match s.snake2 with
    | [] => none
    | h2 :: _ =>
      let head2 := nextHead h2 s.dir2
      let d2 := if s.ghostTimer = 0 then
          checkCollision head2 s.snake2 || checkCollision head2 s.snake1 ||
            (decide (head1 = head2))
        else false
      let s := { s with deadP2 := d2,
                        deadP1 := s.deadP1 ||
                          (decide (s.ghostTimer = 0) && decide (head1 = head2)) }
      if d2 then some (s, i)
      else
        let s := { s with snake2 := head2 :: s.snake2 }
        if head2 = s.food then
          let s := increaseSpeed { s with scoreP2 := s.scoreP2 + 1,
                                          events := s.events ++ [GEvent.foodEaten2] }
          (placeItemFuel r.cells (s.snake1 ++ s.snake2 ++ puList s.powerup) i fuel).map
            fun fr => ({ s with food := fr.1 }, fr.2)
        else
          match s.powerup with
          | some pu =>
            if head2.x = pu.x ∧ head2.y = pu.y then
              let s := applyPowerup2 pu
                { s with scoreP2 := s.scoreP2 + 5,
                         events := s.events ++ [GEvent.powerupCollected2 pu.type] }
              some ({ s with powerup := none }, i)
            else some ({ s with snake2 := s.snake2.dropLast }, i)
          | none => some ({ s with snake2 := s.snake2.dropLast }, i)
  else some (s, i)

/-- `dx > 0 ? 1 : -1`. -/
def sign1 (d : Int) : Int := if 0 < d then 1 else -1

/-- The chaser's movement selection on a chaser tick: the toroidal delta to
the food, the Manhattan-greedy primary axis, the one-level fallback onto the
other axis when the primary target cell is occupied by the player's body
(with `Math.random() > 0.5` choosing a sign when that axis has zero delta),
and staying in place when the fallback target is occupied too. Returns the
chaser's new position. -/
def aiTarget (r : Rand) (food pm : Point) (snake1 : List Point) : Point :=
  let dx0 := food.x - pm.x
  let dy0 := food.y - pm.y
  let dx := if 2 * jsAbs dx0 > COLS then
      (if 0 < dx0 then dx0 - COLS else dx0 + COLS) else dx0
  let dy := if 2 * jsAbs dy0 > ROWS then
      (if 0 < dy0 then dy0 - ROWS else dy0 + ROWS) else dy0
  let pd : Point := if jsAbs dy < jsAbs dx then ⟨sign1 dx, 0⟩ else ⟨0, sign1 dy⟩
  let t1 : Point := ⟨wrap (pm.x + pd.x) COLS, wrap (pm.y + pd.y) ROWS⟩
  let pd : Point :=
    if checkCollision t1 snake1 then
      if jsAbs dy < jsAbs dx then
        ⟨0, if dy ≠ 0 then sign1 dy else (if r.coin then 1 else -1)⟩
      else
        ⟨if dx ≠ 0 then sign1 dx else (if r.coin then 1 else -1), 0⟩
    else pd
  let tgt : Point := ⟨wrap (pm.x + pd.x) COLS, wrap (pm.y + pd.y) ROWS⟩
  if checkCollision tgt snake1 then pm else tgt

/-- The chaser phase (`// --- AI ---`), run in single-player mode: when
frozen, decrement the freeze counter and skip; otherwise advance the chaser
tick counter and, on every second tick, move per `aiTarget`, then check
food consumption, collision with the player's head, and powerup destruction. -/
def phaseAI (r : Rand) (fuel : ℕ) (s : GameState) (i : ℕ) : Option (GameState × ℕ) :=
  match s.pacman with
  | some pm =>
    if s.mode = GameMode.PVC then
      if 0 < s.pacmanFrozen then some ({ s with pacmanFrozen := s.pacmanFrozen - 1 }, i)
      else
        if (s.pacmanMoveTick + 1) % 2 = 0 then
          let pm' := aiTarget r s.food pm s.snake1
          let foodStep : Option (GameState × ℕ) :=
            if pm' = s.food then
              (placeItemFuel r.cells s.snake1 i fuel).map fun fr =>
                ({ s with pacmanMoveTick := s.pacmanMoveTick + 1,
                          pacman := some pm',
                          scorePacman := s.scorePacman + 1, food := fr.1,
                          events := s.events ++ [GEvent.chaserAteFood] }, fr.2)
            else some ({ s with pacmanMoveTick := s.pacmanMoveTick + 1,
                                pacman := some pm' }, i)
          foodStep.map fun q =>
            let s1 := q.1
            let s2 := match s1.snake1 with
                      | h :: _ => if pm' = h then { s1 with deadP1 := true } else s1
                      | [] => s1
            let s3 := match s2.powerup with
                      | some pu =>
                          if pm'.x = pu.x ∧ pm'.y = pu.y then { s2 with powerup := none }
                          else s2
                      | none => s2
            (s3, q.2)
        else some ({ s with pacmanMoveTick := s.pacmanMoveTick + 1 }, i)
    else some (s, i)
  | none => some (s, i)

/-- `// --- Resolve Game Over ---`: any death flips the game into the
game-over state. -/
def phaseEnd (s : GameState) : GameState :=
  if s.deadP1 || s.deadP2 then { s with gameOver := true } else s

/-- The start of a move tick: commit the pending directions into `dir1` /
`dir2` (the latter only in two-player mode), and reset the per-tick death
flags and event list. -/
def commitState (s : GameState) : GameState :=
  { s with dir1 := s.nextDir1,
           dir2 := if s.mode = GameMode.PVP then s.nextDir2 else s.dir2,
           deadP1 := false, deadP2 := false, events := [] }

/-- The body of `if (moveTimer.current > moveInterval.current)`: commit the
pending directions, compute player 1's next head, then run the player-1,
player-2, chaser and game-over phases in the source's order. `none` models a
crash on an empty snake or a `placeItem` loop that never returned. -/
def movePhase (r : Rand) (fuel : ℕ) (s : GameState) : Option GameState :=
  match s.snake1 with
  | [] => none
  | h1 :: _ =>
    let head1 := nextHead h1 s.nextDir1
    (phaseP1 r fuel head1 (commitState s) 0).bind fun q1 =>
      (phaseP2 r fuel head1 q1.1 q1.2).bind fun q2 =>
        (phaseAI r fuel q2.1 q2.2).map fun q3 => phaseEnd q3.1

/-- The per-frame timer countdowns at the top of `update`, which run before
the move-interval test: the speed/slow timer reverts the interval on expiry,
and the ghost timer counts down. -/
def tickTimers (s : GameState) : GameState :=
  let s := if 0 < s.speedBoostTimer then
      let t := s.speedBoostTimer - 1
      { s with speedBoostTimer := t,
               moveInterval := if t = 0 then (s.baseMoveInterval : ℚ) else s.moveInterval }
    else s
  if 0 < s.ghostTimer then { s with ghostTimer := s.ghostTimer - 1 } else s

/-- One invocation of `update` in which the move interval fires: the timer
countdowns followed by the move phase. -/
def tick (r : Rand) (fuel : ℕ) (s : GameState) : Option GameState :=
  movePhase r fuel (tickTimers s)

/-- A state with the scalar fields as `resetGame` leaves them (entities are
filled in per scenario). -/
def resetBase : GameState where
  mode := GameMode.PVP
  snake1 := []
  dir1 := ⟨0, -1⟩
  nextDir1 := ⟨0, -1⟩
  snake2 := []
  dir2 := ⟨0, -1⟩
  nextDir2 := ⟨0, -1⟩
  food := ⟨0, 0⟩
  powerup := none
  pacman := none
  pacmanFrozen := 0
  speedBoostTimer := 0
  ghostTimer := 0
  moveInterval := 120
  baseMoveInterval := 120
  pacmanMoveTick := 0
  scoreP1 := 0
  scoreP2 := 0
  scorePacman := 0
  deadP1 := false
  deadP2 := false
  gameOver := false
  events := []

/-- A fixed random source whose every cell sample is `(0, 0)`. -/
def randZero : Rand := ⟨fun _ => (0, 0), false, PowerupType.FREEZE, false⟩

/-- Two-player state whose snake 1 is a 2 × 2 ring about to move into its own
tail cell `(6, 5)` without eating anything (tail-chasing). -/
def stC1 : GameState :=
  { resetBase with
      snake1 := [⟨5, 5⟩, ⟨5, 4⟩, ⟨6, 4⟩, ⟨6, 5⟩]
      dir1 := ⟨0, 1⟩
      nextDir1 := ⟨1, 0⟩
      snake2 := [⟨20, 10⟩, ⟨20, 11⟩]
      food := ⟨10, 10⟩ }

/-- Two-player state with an active ghost timer and both next heads about to
land on `(11, 10)`. -/
def stC2 : GameState :=
  { resetBase with
      snake1 := [⟨10, 10⟩, ⟨9, 10⟩]
      dir1 := ⟨1, 0⟩
      nextDir1 := ⟨1, 0⟩
      snake2 := [⟨12, 10⟩, ⟨13, 10⟩]
      dir2 := ⟨-1, 0⟩
      nextDir2 := ⟨-1, 0⟩
      food := ⟨5, 5⟩
      ghostTimer := 5 }

/-- Two-player state whose snake 1 is about to move onto a FREEZE powerup at
`(5, 4)` (not onto food). -/
def stC3 : GameState :=
  { resetBase with
      snake1 := [⟨5, 5⟩, ⟨5, 6⟩]
      snake2 := [⟨15, 15⟩, ⟨15, 16⟩]
      food := ⟨20, 10⟩
      powerup := some ⟨5, 4, PowerupType.FREEZE⟩ }

/-- Two-player state whose snake 1 is about to move onto the food at
`(5, 4)`. -/
def stC3f : GameState :=
  { resetBase with
      snake1 := [⟨5, 5⟩, ⟨5, 6⟩]
      snake2 := [⟨15, 15⟩, ⟨15, 16⟩]
      food := ⟨5, 4⟩ }

/-- Single-player state in which the player is about to eat the frozen
chaser at `(6, 5)` while its body surrounds that cell; the random respawn
lands the chaser back on `(6, 5)` and the chaser tick parity lets the AI
run in the same tick. -/
def stC6 : GameState :=
  { resetBase with
      mode := GameMode.PVC
      snake1 := [⟨5, 5⟩, ⟨5, 4⟩, ⟨6, 4⟩, ⟨7, 4⟩, ⟨7, 5⟩, ⟨7, 6⟩, ⟨6, 6⟩, ⟨5, 6⟩]
      dir1 := ⟨0, 1⟩
      nextDir1 := ⟨1, 0⟩
      food := ⟨8, 5⟩
      pacman := some ⟨6, 5⟩
      pacmanFrozen := 3
      pacmanMoveTick := 1 }

/-- The random source for `stC6`: every cell sample is `(6, 5)` and the AI
tie-break coin is heads. -/
def randC6 : Rand := ⟨fun _ => (6, 5), false, PowerupType.FREEZE, true⟩

/-- Single-player state in which the chaser is about to step onto the food
at `(10, 10)`, and the food relocation sample is the powerup's cell
`(12, 12)`. -/
def stC7 : GameState :=
  { resetBase with
      mode := GameMode.PVC
      snake1 := [⟨5, 5⟩]
      food := ⟨10, 10⟩
      powerup := some ⟨12, 12, PowerupType.SPEED⟩
      pacman := some ⟨10, 11⟩
      pacmanMoveTick := 1 }

/-- The random source for `stC7`: every cell sample is `(12, 12)`. -/
def randC7 : Rand := ⟨fun _ => (12, 12), false, PowerupType.FREEZE, false⟩

/-- Single-player variant of `stC6` with even chaser-tick parity, so the
chaser phase is skipped after the consumption: the benign scenario. -/
def stC6good : GameState :=
  { stC6 with pacmanMoveTick := 0 }

/-- Two-player state whose snake 1 is about to collect a GHOST powerup. -/
def stC10a : GameState :=
  { resetBase with
      snake1 := [⟨5, 5⟩, ⟨5, 6⟩]
      snake2 := [⟨15, 15⟩, ⟨15, 16⟩]
      food := ⟨20, 10⟩
      powerup := some ⟨5, 4, PowerupType.GHOST⟩ }

/-- Two-player state whose snake 2 is about to collect a GHOST powerup. -/
def stC10b : GameState :=
  { resetBase with
      snake1 := [⟨5, 5⟩, ⟨5, 6⟩]
      snake2 := [⟨15, 15⟩, ⟨15, 16⟩]
      food := ⟨20, 10⟩
      powerup := some ⟨15, 14, PowerupType.GHOST⟩ }

theorem checkCollision_eq_true_iff (head : Point) (body : List Point) :
    checkCollision head body = true ↔ head ∈ body := by
  simp only [checkCollision, List.any_eq_true, Bool.and_eq_true, beq_iff_eq]
  constructor
  · rintro ⟨p, hp, hx, hy⟩
    have : head = p := by cases head; cases p; simp_all
    exact this ▸ hp
  · intro h
    exact ⟨head, h, rfl, rfl⟩

theorem checkCollision_eq_false_iff (head : Point) (body : List Point) :
    checkCollision head body = false ↔ head ∉ body := by
  rw [← checkCollision_eq_true_iff]
  cases h : checkCollision head body <;> simp [h]

theorem mem_fullGrid_of_range (p : Point) (hx0 : 0 ≤ p.x) (hx : p.x < 30)
    (hy0 : 0 ≤ p.y) (hy : p.y < 20) : p ∈ fullGrid := by
  obtain ⟨x, y⟩ := p
  dsimp only at hx0 hx hy0 hy
  have hy' : y.toNat ∈ List.range 20 := List.mem_range.mpr (by omega)
  have hx' : x.toNat ∈ List.range 30 := List.mem_range.mpr (by omega)
  have heq : (⟨(x.toNat : Int), (y.toNat : Int)⟩ : Point) = ⟨x, y⟩ := by
    simp only [Point.mk.injEq]
    omega
  have hmem0 := List.mem_map_of_mem (fun b : ℕ => (⟨(x.toNat : Int), (b : Int)⟩ : Point)) hy'
  have hmem1 : (⟨(x.toNat : Int), (y.toNat : Int)⟩ : Point) ∈
      (List.range 20).map (fun b : ℕ => (⟨(x.toNat : Int), (b : Int)⟩ : Point)) := hmem0
  rw [heq] at hmem1
  exact List.mem_flatMap.mpr ⟨x.toNat, hx', hmem1⟩

theorem sampleCell_mem_fullGrid (r : ℕ → ℕ × ℕ) (i : ℕ) : sampleCell r i ∈ fullGrid := by
  apply mem_fullGrid_of_range <;>
    · unfold sampleCell COLS ROWS CANVAS_WIDTH CANVAS_HEIGHT CELL_SIZE
      first
        | exact Int.emod_nonneg _ (by norm_num)
        | exact Int.emod_lt_of_pos _ (by norm_num)

/-- C1: the claim fails — in `stC1` the snake's computed next head `(6, 5)`
is exactly its own tail cell, the move hits no food, powerup or chaser (so
the snake is not growing and the tail would be vacated), yet the tick marks
player 1 dead and ends the round: `checkCollision` tests the whole current
body, tail included, with no vacated-tail exemption. -/
theorem C1_counterexample :
    nextHead ⟨5, 5⟩ stC1.nextDir1 = ⟨6, 5⟩ ∧
    stC1.snake1 = [⟨5, 5⟩, ⟨5, 4⟩, ⟨6, 4⟩, ⟨6, 5⟩] ∧
    nextHead ⟨5, 5⟩ stC1.nextDir1 ≠ stC1.food ∧
    stC1.powerup = none ∧ stC1.pacman = none ∧
    (tick randZero 5 stC1).map (fun u => (u.deadP1, u.gameOver)) = some (true, true) := by
  decide

/-- C2: the claim fails — in `stC2` the ghost timer is active and both
computed next heads coincide at `(11, 10)`, yet neither snake dies: the
head-to-head check sits inside the `ghostTimer === 0` guard, so the Ghost
effect suppresses the head-to-head outcome as well. -/
theorem C2_counterexample :
    0 < stC2.ghostTimer ∧
    nextHead ⟨10, 10⟩ stC2.nextDir1 = nextHead ⟨12, 10⟩ stC2.nextDir2 ∧
    (tick randZero 5 stC2).map (fun u => (u.deadP1, u.deadP2, u.gameOver)) =
      some (false, false, false) := by
  decide

/-- C3: the claim fails — in `stC3` player 1's move lands on a FREEZE
powerup, not on food, yet the body length grows from 2 to 3: the powerup
branch also skips the tail pop. -/
theorem C3_counterexample :
    stC3.snake1.length = 2 ∧
    nextHead ⟨5, 5⟩ stC3.nextDir1 ≠ stC3.food ∧
    (tick randZero 5 stC3).map (fun u => u.snake1.length) = some 3 := by
  decide

/-- C4: the claim fails — `wrap` is not the mathematical modulus on all
integers: `wrap(-2, 30)` is `29` while `-2 mod 30` is `28` (any value below
`-1` is clamped to `limit - 1`, and any value above `limit` to `0`). -/
theorem C4_counterexample :
    wrap (-2) 30 = 29 ∧ (-2 : Int) % 30 = 28 ∧ wrap (-2) 30 ≠ (-2 : Int) % 30 := by
  decide

/-- C5: the claim fails — resubmitting the committed direction itself
(up while moving up) is not the direct opposite of the committed direction,
so per the claim it should be accepted, but the handler guard
`dir.y === 0` rejects it: a previously accepted pending direction `(1, 0)`
survives instead of being overwritten. -/
theorem C5_counterexample :
    isUnitDir ⟨0, -1⟩ ∧
    (⟨0, -1⟩ : Point) ≠ opposite ⟨0, -1⟩ ∧
    ¬ accepts ⟨0, -1⟩ ⟨0, -1⟩ ∧
    submitIntent ⟨0, -1⟩ ⟨1, 0⟩ ⟨0, -1⟩ = ⟨1, 0⟩ ∧
    (⟨1, 0⟩ : Point) ≠ (⟨0, -1⟩ : Point) := by
  decide

/-- C6: the claim fails — in `stC6` the chaser is frozen and the player's
next head equals the chaser's cell, so the consumption fires (score, respawn,
freeze cleared), but the randomly respawned chaser lands back on the player's
new head cell, the chaser phase runs in the same tick (freeze was just
cleared and the chaser-tick parity matches), both escape axes are blocked by
the player's body, and the `pacman === snake head` check kills the player:
the round does not continue. -/
theorem C6_counterexample :
    0 < stC6.pacmanFrozen ∧
    stC6.pacman = some ⟨6, 5⟩ ∧
    nextHead ⟨5, 5⟩ stC6.nextDir1 = ⟨6, 5⟩ ∧
    (tick randC6 5 stC6).map (fun u => (u.deadP1, u.gameOver, u.scoreP1, u.pacmanFrozen)) =
      some (true, true, 5, 0) := by
  decide

/-- C7: the claim fails — in `stC7` the chaser steps onto the food, and the
relocation call `placeItem([...snake1.current])` excludes only the player's
body, so the sampled cell `(12, 12)` — the active powerup's position — is
accepted: the new food coincides with an occupied cell at spawn time. -/
theorem C7_counterexample :
    stC7.powerup = some ⟨12, 12, PowerupType.SPEED⟩ ∧
    (tick randC7 5 stC7).map
        (fun u => (u.food, u.powerup.map fun pu => (⟨pu.x, pu.y⟩ : Point))) =
      some (⟨12, 12⟩, some ⟨12, 12⟩) := by
  decide

/-- C9: the claim fails — on a saturated grid (every cell excluded) the
`placeItem` loop never returns, for every random stream and every iteration
bound: there is no exhaustive search and no fatal-error escalation. -/
theorem C9_counterexample : placeItemDiverges fullGrid := by
  intro r i fuel
  induction fuel generalizing i with
  | zero => rfl
  | succ n ih =>
      have hcc : checkCollision (sampleCell r i) fullGrid = true :=
        (checkCollision_eq_true_iff _ _).mpr (sampleCell_mem_fullGrid r i)
      simp [placeItemFuel, hcc, ih]

theorem tickTimers_mode (s : GameState) : (tickTimers s).mode = s.mode := by
  simp only [tickTimers]
  repeat' split
  all_goals rfl

theorem tickTimers_snake1 (s : GameState) : (tickTimers s).snake1 = s.snake1 := by
  simp only [tickTimers]
  repeat' split
  all_goals rfl

theorem tickTimers_snake2 (s : GameState) : (tickTimers s).snake2 = s.snake2 := by
  simp only [tickTimers]
  repeat' split
  all_goals rfl

theorem tickTimers_dir2 (s : GameState) : (tickTimers s).dir2 = s.dir2 := by
  simp only [tickTimers]
  repeat' split
  all_goals rfl

theorem tickTimers_nextDir1 (s : GameState) : (tickTimers s).nextDir1 = s.nextDir1 := by
  simp only [tickTimers]
  repeat' split
  all_goals rfl

theorem tickTimers_nextDir2 (s : GameState) : (tickTimers s).nextDir2 = s.nextDir2 := by
  simp only [tickTimers]
  repeat' split
  all_goals rfl

theorem tickTimers_food (s : GameState) : (tickTimers s).food = s.food := by
  simp only [tickTimers]
  repeat' split
  all_goals rfl

theorem tickTimers_powerup (s : GameState) : (tickTimers s).powerup = s.powerup := by
  simp only [tickTimers]
  repeat' split
  all_goals rfl

theorem tickTimers_pacman (s : GameState) : (tickTimers s).pacman = s.pacman := by
  simp only [tickTimers]
  repeat' split
  all_goals rfl

theorem tickTimers_pacmanFrozen (s : GameState) :
    (tickTimers s).pacmanFrozen = s.pacmanFrozen := by
  simp only [tickTimers]
  repeat' split
  all_goals rfl

theorem tickTimers_pacmanMoveTick (s : GameState) :
    (tickTimers s).pacmanMoveTick = s.pacmanMoveTick := by
  simp only [tickTimers]
  repeat' split
  all_goals rfl

theorem tickTimers_scoreP1 (s : GameState) : (tickTimers s).scoreP1 = s.scoreP1 := by
  simp only [tickTimers]
  repeat' split
  all_goals rfl

theorem tickTimers_scoreP2 (s : GameState) : (tickTimers s).scoreP2 = s.scoreP2 := by
  simp only [tickTimers]
  repeat' split
  all_goals rfl

theorem tickTimers_gameOver (s : GameState) : (tickTimers s).gameOver = s.gameOver := by
  simp only [tickTimers]
  repeat' split
  all_goals rfl

theorem tickTimers_ghost_of_zero (s : GameState) (h : s.ghostTimer = 0) :
    (tickTimers s).ghostTimer = 0 := by
  simp only [tickTimers]
  repeat' split
  all_goals simp_all

theorem tickTimers_ghost_ne_zero (s : GameState) (h : 1 < s.ghostTimer) :
    (tickTimers s).ghostTimer ≠ 0 := by
  simp only [tickTimers]
  repeat' split
  all_goals simp_all
  all_goals try omega

@[simp] theorem phaseEnd_snake1 (s : GameState) : (phaseEnd s).snake1 = s.snake1 := by
  unfold phaseEnd
  split <;> rfl

@[simp] theorem phaseEnd_scoreP1 (s : GameState) : (phaseEnd s).scoreP1 = s.scoreP1 := by
  unfold phaseEnd
  split <;> rfl

@[simp] theorem phaseEnd_deadP1 (s : GameState) : (phaseEnd s).deadP1 = s.deadP1 := by
  unfold phaseEnd
  split <;> rfl

@[simp] theorem phaseEnd_deadP2 (s : GameState) : (phaseEnd s).deadP2 = s.deadP2 := by
  unfold phaseEnd
  split <;> rfl

@[simp] theorem phaseEnd_ghostTimer (s : GameState) : (phaseEnd s).ghostTimer = s.ghostTimer := by
  unfold phaseEnd
  split <;> rfl

@[simp] theorem phaseEnd_pacman (s : GameState) : (phaseEnd s).pacman = s.pacman := by
  unfold phaseEnd
  split <;> rfl

@[simp] theorem phaseEnd_pacmanFrozen (s : GameState) :
    (phaseEnd s).pacmanFrozen = s.pacmanFrozen := by
  unfold phaseEnd
  split <;> rfl

@[simp] theorem phaseEnd_events (s : GameState) : (phaseEnd s).events = s.events := by
  unfold phaseEnd
  split <;> rfl

theorem phaseEnd_gameOver_of_dead (s : GameState) (h : s.deadP1 = true) :
    (phaseEnd s).gameOver = true := by
  unfold phaseEnd
  rw [h]
  simp

theorem phaseEnd_gameOver_of_alive (s : GameState) (h1 : s.deadP1 = false)
    (h2 : s.deadP2 = false) : (phaseEnd s).gameOver = s.gameOver := by
  unfold phaseEnd
  rw [h1, h2]
  simp

theorem phaseP2_skip (r : Rand) (fuel : ℕ) (head1 : Point) (s : GameState) (i : ℕ)
    (h : s.mode ≠ GameMode.PVP) : phaseP2 r fuel head1 s i = some (s, i) := by
  unfold phaseP2
  rw [if_neg h]

theorem phaseAI_noPac (r : Rand) (fuel : ℕ) (s : GameState) (i : ℕ)
    (h : s.pacman = none) : phaseAI r fuel s i = some (s, i) := by
  unfold phaseAI
  rw [h]

theorem phaseAI_notPVC (r : Rand) (fuel : ℕ) (s : GameState) (i : ℕ)
    (h : s.mode ≠ GameMode.PVC) : phaseAI r fuel s i = some (s, i) := by
  unfold phaseAI
  cases hp : s.pacman with
  | none => rfl
  | some pm => simp [h]

theorem phaseAI_parity (r : Rand) (fuel : ℕ) (s : GameState) (i : ℕ) (pm : Point)
    (hpm : s.pacman = some pm) (hmode : s.mode = GameMode.PVC)
    (hfr : ¬ 0 < s.pacmanFrozen) (hpar : ¬ (s.pacmanMoveTick + 1) % 2 = 0) :
    phaseAI r fuel s i = some ({ s with pacmanMoveTick := s.pacmanMoveTick + 1 }, i) := by
  unfold phaseAI
  rw [hpm]
  simp only [hmode, if_pos, if_neg hfr, if_neg hpar]

theorem placeItemFuel_not_mem (r : ℕ → ℕ × ℕ) (excl : List Point) :
    ∀ (fuel i : ℕ) (p : Point) (j : ℕ),
      placeItemFuel r excl i fuel = some (p, j) → checkCollision p excl = false := by
  intro fuel
  induction fuel with
  | zero => intro i p j h; exact absurd h (by simp [placeItemFuel])
  | succ n ih =>
      intro i p j h
      unfold placeItemFuel at h
      by_cases hc : checkCollision (sampleCell r i) excl = true
      · rw [if_pos hc] at h
        exact ih (i + 1) p j h
      · rw [if_neg hc] at h
        obtain ⟨rfl, rfl⟩ : sampleCell r i = p ∧ i + 1 = j := by
          simpa using h
        simpa using hc

theorem placeItemFuel_isSome_of_free (r : ℕ → ℕ × ℕ) (excl : List Point) :
    ∀ (k i fuel : ℕ),
      checkCollision (sampleCell r (i + k)) excl = false →
      k < fuel →
      (placeItemFuel r excl i fuel).isSome = true := by
  intro k
  induction k with
  | zero =>
      intro i fuel hfree hlt
      obtain ⟨n, rfl⟩ : ∃ n, fuel = n + 1 := ⟨fuel - 1, by omega⟩
      unfold placeItemFuel
      by_cases hc : checkCollision (sampleCell r i) excl = true
      · rw [Nat.add_zero] at hfree
        rw [hfree] at hc
        exact absurd hc (by simp)
      · rw [if_neg hc]
        rfl
  | succ m ih =>
      intro i fuel hfree hlt
      obtain ⟨n, rfl⟩ : ∃ n, fuel = n + 1 := ⟨fuel - 1, by omega⟩
      unfold placeItemFuel
      by_cases hc : checkCollision (sampleCell r i) excl = true
      · rw [if_pos hc]
        refine ih (i + 1) n ?_ (by omega)
        have : i + 1 + m = i + (m + 1) := by omega
        rw [this]
        exact hfree
      · rw [if_neg hc]
        rfl

theorem phaseP1_plain (r : Rand) (fuel : ℕ) (head1 : Point) (s : GameState) (i : ℕ)
    (hmode : s.mode ≠ GameMode.PVC)
    (hc1 : checkCollision head1 s.snake1 = false)
    (hc2 : checkCollision head1 s.snake2 = false)
    (hfood : head1 ≠ s.food)
    (hpu : powerupAt s.powerup head1 = false) :
    phaseP1 r fuel head1 s i = some ({ s with snake1 := (head1 :: s.snake1).dropLast }, i) := by
  unfold phaseP1
  cases hp : s.pacman with
  | none =>
      cases hpu0 : s.powerup with
      | none => simp [hc1, hc2, hfood, hpu0, hp]
      | some pu =>
          have hxy : ¬ (head1.x = pu.x ∧ head1.y = pu.y) := by
            intro hxy
            rw [hpu0] at hpu
            simp [powerupAt, hxy.1, hxy.2] at hpu
          simp [hc1, hc2, hfood, hpu0, hxy, hp]
  | some pm =>
      have hguard : ¬ (s.mode = GameMode.PVC ∧ head1 = pm) := fun hx => hmode hx.1
      cases hpu0 : s.powerup with
      | none => simp [hguard, hc1, hc2, hfood, hpu0, hp]
      | some pu =>
          have hxy : ¬ (head1.x = pu.x ∧ head1.y = pu.y) := by
            intro hxy
            rw [hpu0] at hpu
            simp [powerupAt, hxy.1, hxy.2] at hpu
          simp [hguard, hc1, hc2, hfood, hpu0, hxy, hp]

theorem phaseP1_powerup (r : Rand) (fuel : ℕ) (head1 : Point) (s : GameState) (i : ℕ)
    (pu : Powerup)
    (hmode : s.mode ≠ GameMode.PVC)
    (hc1 : checkCollision head1 s.snake1 = false)
    (hc2 : checkCollision head1 s.snake2 = false)
    (hfood : head1 ≠ s.food)
    (hpu : s.powerup = some pu)
    (hat : head1.x = pu.x ∧ head1.y = pu.y) :
    phaseP1 r fuel head1 s i =
      some ({ applyPowerup1 pu
                { s with snake1 := head1 :: s.snake1,
                         scoreP1 := s.scoreP1 + 5,
                         events := s.events ++ [GEvent.powerupCollected1 pu.type] }
                with powerup := none }, i) := by
  unfold phaseP1
  cases hp : s.pacman with
  | none => simp [hc1, hc2, hfood, hpu, hat, hp]
  | some pm =>
      have hguard : ¬ (s.mode = GameMode.PVC ∧ head1 = pm) := fun hx => hmode hx.1
      simp [hguard, hc1, hc2, hfood, hpu, hat, hp]

theorem phaseP1_consume (r : Rand) (fuel : ℕ) (head1 : Point) (s : GameState) (i : ℕ)
    (pm : Point)
    (hmode : s.mode = GameMode.PVC)
    (hc1 : checkCollision head1 s.snake1 = false)
    (hc2 : checkCollision head1 s.snake2 = false)
    (hp : s.pacman = some pm)
    (hfrozen : 0 < s.pacmanFrozen)
    (hhead : head1 = pm)
    (hfood : head1 ≠ s.food)
    (hpu : powerupAt s.powerup head1 = false) :
    phaseP1 r fuel head1 s i =
      (placeItemFuel r.cells (s.snake1 ++ [s.food] ++ puList s.powerup) i fuel).map
        fun pr =>
          ({ s with snake1 := head1 :: s.snake1,
                    scoreP1 := s.scoreP1 + 5,
                    pacman := some pr.1,
                    pacmanFrozen := 0,
                    events := s.events ++ [GEvent.agentConsumed] }, pr.2) := by
  subst hhead
  unfold phaseP1
  rw [hp]
  cases hpl : placeItemFuel r.cells (s.snake1 ++ [s.food] ++ puList s.powerup) i fuel with
  | none => simp [hmode, hfrozen, hpl]
  | some pr =>
      cases hpu0 : s.powerup with
      | none => simp [hmode, hfrozen, hpl, hc1, hc2, hfood, hpu0]
      | some pu =>
          have hxy : ¬ (head1.x = pu.x ∧ head1.y = pu.y) := by
            intro hxy
            rw [hpu0] at hpu
            simp [powerupAt, hxy.1, hxy.2] at hpu
          simp [hmode, hfrozen, hpl, hc1, hc2, hfood, hpu0, hxy]

theorem phaseP2_hh (r : Rand) (fuel : ℕ) (head1 : Point) (s : GameState) (i : ℕ)
    (h2 : Point) (t2 : List Point)
    (hmode : s.mode = GameMode.PVP)
    (hs2 : s.snake2 = h2 :: t2)
    (hg : s.ghostTimer = 0)
    (hhh : head1 = nextHead h2 s.dir2) :
    phaseP2 r fuel head1 s i = some ({ s with deadP2 := true, deadP1 := true }, i) := by
  unfold phaseP2
  rw [if_pos hmode, hs2]
  simp [hg, ← hhh]

theorem phaseP2_powerup (r : Rand) (fuel : ℕ) (head1 : Point) (s : GameState) (i : ℕ)
    (h2 : Point) (t2 : List Point) (pu : Powerup)
    (hmode : s.mode = GameMode.PVP)
    (hs2 : s.snake2 = h2 :: t2)
    (hg : s.ghostTimer = 0)
    (hc22 : checkCollision (nextHead h2 s.dir2) s.snake2 = false)
    (hc21 : checkCollision (nextHead h2 s.dir2) s.snake1 = false)
    (hneq : head1 ≠ nextHead h2 s.dir2)
    (hfood : nextHead h2 s.dir2 ≠ s.food)
    (hpu : s.powerup = some pu)
    (hat : (nextHead h2 s.dir2).x = pu.x ∧ (nextHead h2 s.dir2).y = pu.y) :
    phaseP2 r fuel head1 s i =
      some ({ applyPowerup2 pu
                { s with deadP2 := false,
                         deadP1 := s.deadP1 || false,
                         snake2 := nextHead h2 s.dir2 :: s.snake2,
                         scoreP2 := s.scoreP2 + 5,
                         events := s.events ++ [GEvent.powerupCollected2 pu.type] }
                with powerup := none }, i) := by
  unfold phaseP2
  rw [hs2] at hc22
  rw [if_pos hmode, hs2]
  simp [hs2, hg, hc22, hc21, hneq, hfood, hpu, hat]

@[simp] theorem increaseSpeed_mode (s : GameState) : (increaseSpeed s).mode = s.mode := rfl

@[simp] theorem increaseSpeed_snake1 (s : GameState) : (increaseSpeed s).snake1 = s.snake1 := rfl

@[simp] theorem increaseSpeed_dir1 (s : GameState) : (increaseSpeed s).dir1 = s.dir1 := rfl

@[simp] theorem increaseSpeed_nextDir1 (s : GameState) : (increaseSpeed s).nextDir1 = s.nextDir1 := rfl

@[simp] theorem increaseSpeed_snake2 (s : GameState) : (increaseSpeed s).snake2 = s.snake2 := rfl

@[simp] theorem increaseSpeed_dir2 (s : GameState) : (increaseSpeed s).dir2 = s.dir2 := rfl

@[simp] theorem increaseSpeed_nextDir2 (s : GameState) : (increaseSpeed s).nextDir2 = s.nextDir2 := rfl

@[simp] theorem increaseSpeed_food (s : GameState) : (increaseSpeed s).food = s.food := rfl

@[simp] theorem increaseSpeed_powerup (s : GameState) : (increaseSpeed s).powerup = s.powerup := rfl

@[simp] theorem increaseSpeed_pacman (s : GameState) : (increaseSpeed s).pacman = s.pacman := rfl

@[simp] theorem increaseSpeed_pacmanFrozen (s : GameState) : (increaseSpeed s).pacmanFrozen = s.pacmanFrozen := rfl

@[simp] theorem increaseSpeed_speedBoostTimer (s : GameState) : (increaseSpeed s).speedBoostTimer = s.speedBoostTimer := rfl

@[simp] theorem increaseSpeed_ghostTimer (s : GameState) : (increaseSpeed s).ghostTimer = s.ghostTimer := rfl

@[simp] theorem increaseSpeed_pacmanMoveTick (s : GameState) : (increaseSpeed s).pacmanMoveTick = s.pacmanMoveTick := rfl

@[simp] theorem increaseSpeed_scoreP1 (s : GameState) : (increaseSpeed s).scoreP1 = s.scoreP1 := rfl

@[simp] theorem increaseSpeed_scoreP2 (s : GameState) : (increaseSpeed s).scoreP2 = s.scoreP2 := rfl

@[simp] theorem increaseSpeed_scorePacman (s : GameState) : (increaseSpeed s).scorePacman = s.scorePacman := rfl

@[simp] theorem increaseSpeed_deadP1 (s : GameState) : (increaseSpeed s).deadP1 = s.deadP1 := rfl

@[simp] theorem increaseSpeed_deadP2 (s : GameState) : (increaseSpeed s).deadP2 = s.deadP2 := rfl

@[simp] theorem increaseSpeed_gameOver (s : GameState) : (increaseSpeed s).gameOver = s.gameOver := rfl

@[simp] theorem increaseSpeed_events (s : GameState) : (increaseSpeed s).events = s.events := rfl

@[simp] theorem applyPowerup1_mode (pu : Powerup) (s : GameState) : (applyPowerup1 pu s).mode = s.mode := by
  unfold applyPowerup1
  obtain ⟨x, y, ty⟩ := pu
  cases ty <;> repeat' split
  all_goals first | rfl | simp_all

@[simp] theorem applyPowerup1_dir1 (pu : Powerup) (s : GameState) : (applyPowerup1 pu s).dir1 = s.dir1 := by
  unfold applyPowerup1
  obtain ⟨x, y, ty⟩ := pu
  cases ty <;> repeat' split
  all_goals first | rfl | simp_all

@[simp] theorem applyPowerup1_nextDir1 (pu : Powerup) (s : GameState) : (applyPowerup1 pu s).nextDir1 = s.nextDir1 := by
  unfold applyPowerup1
  obtain ⟨x, y, ty⟩ := pu
  cases ty <;> repeat' split
  all_goals first | rfl | simp_all

@[simp] theorem applyPowerup1_dir2 (pu : Powerup) (s : GameState) : (applyPowerup1 pu s).dir2 = s.dir2 := by
  unfold applyPowerup1
  obtain ⟨x, y, ty⟩ := pu
  cases ty <;> repeat' split
  all_goals first | rfl | simp_all

@[simp] theorem applyPowerup1_nextDir2 (pu : Powerup) (s : GameState) : (applyPowerup1 pu s).nextDir2 = s.nextDir2 := by
  unfold applyPowerup1
  obtain ⟨x, y, ty⟩ := pu
  cases ty <;> repeat' split
  all_goals first | rfl | simp_all

@[simp] theorem applyPowerup1_food (pu : Powerup) (s : GameState) : (applyPowerup1 pu s).food = s.food := by
  unfold applyPowerup1
  obtain ⟨x, y, ty⟩ := pu
  cases ty <;> repeat' split
  all_goals first | rfl | simp_all

@[simp] theorem applyPowerup1_powerup (pu : Powerup) (s : GameState) : (applyPowerup1 pu s).powerup = s.powerup := by
  unfold applyPowerup1
  obtain ⟨x, y, ty⟩ := pu
  cases ty <;> repeat' split
  all_goals first | rfl | simp_all

@[simp] theorem applyPowerup1_pacman (pu : Powerup) (s : GameState) : (applyPowerup1 pu s).pacman = s.pacman := by
  unfold applyPowerup1
  obtain ⟨x, y, ty⟩ := pu
  cases ty <;> repeat' split
  all_goals first | rfl | simp_all

@[simp] theorem applyPowerup1_pacmanMoveTick (pu : Powerup) (s : GameState) : (applyPowerup1 pu s).pacmanMoveTick = s.pacmanMoveTick := by
  unfold applyPowerup1
  obtain ⟨x, y, ty⟩ := pu
  cases ty <;> repeat' split
  all_goals first | rfl | simp_all

@[simp] theorem applyPowerup1_scoreP1 (pu : Powerup) (s : GameState) : (applyPowerup1 pu s).scoreP1 = s.scoreP1 := by
  unfold applyPowerup1
  obtain ⟨x, y, ty⟩ := pu
  cases ty <;> repeat' split
  all_goals first | rfl | simp_all

@[simp] theorem applyPowerup1_scoreP2 (pu : Powerup) (s : GameState) : (applyPowerup1 pu s).scoreP2 = s.scoreP2 := by
  unfold applyPowerup1
  obtain ⟨x, y, ty⟩ := pu
  cases ty <;> repeat' split
  all_goals first | rfl | simp_all

@[simp] theorem applyPowerup1_scorePacman (pu : Powerup) (s : GameState) : (applyPowerup1 pu s).scorePacman = s.scorePacman := by
  unfold applyPowerup1
  obtain ⟨x, y, ty⟩ := pu
  cases ty <;> repeat' split
  all_goals first | rfl | simp_all

@[simp] theorem applyPowerup1_deadP1 (pu : Powerup) (s : GameState) : (applyPowerup1 pu s).deadP1 = s.deadP1 := by
  unfold applyPowerup1
  obtain ⟨x, y, ty⟩ := pu
  cases ty <;> repeat' split
  all_goals first | rfl | simp_all

@[simp] theorem applyPowerup1_deadP2 (pu : Powerup) (s : GameState) : (applyPowerup1 pu s).deadP2 = s.deadP2 := by
  unfold applyPowerup1
  obtain ⟨x, y, ty⟩ := pu
  cases ty <;> repeat' split
  all_goals first | rfl | simp_all

@[simp] theorem applyPowerup1_gameOver (pu : Powerup) (s : GameState) : (applyPowerup1 pu s).gameOver = s.gameOver := by
  unfold applyPowerup1
  obtain ⟨x, y, ty⟩ := pu
  cases ty <;> repeat' split
  all_goals first | rfl | simp_all

@[simp] theorem applyPowerup1_events (pu : Powerup) (s : GameState) : (applyPowerup1 pu s).events = s.events := by
  unfold applyPowerup1
  obtain ⟨x, y, ty⟩ := pu
  cases ty <;> repeat' split
  all_goals first | rfl | simp_all

@[simp] theorem applyPowerup1_snake2 (pu : Powerup) (s : GameState) : (applyPowerup1 pu s).snake2 = s.snake2 := by
  unfold applyPowerup1
  obtain ⟨x, y, ty⟩ := pu
  cases ty <;> repeat' split
  all_goals first | rfl | simp_all

@[simp] theorem applyPowerup2_mode (pu : Powerup) (s : GameState) : (applyPowerup2 pu s).mode = s.mode := by
  unfold applyPowerup2
  obtain ⟨x, y, ty⟩ := pu
  cases ty <;> repeat' split
  all_goals first | rfl | simp_all

@[simp] theorem applyPowerup2_dir1 (pu : Powerup) (s : GameState) : (applyPowerup2 pu s).dir1 = s.dir1 := by
  unfold applyPowerup2
  obtain ⟨x, y, ty⟩ := pu
  cases ty <;> repeat' split
  all_goals first | rfl | simp_all

@[simp] theorem applyPowerup2_nextDir1 (pu : Powerup) (s : GameState) : (applyPowerup2 pu s).nextDir1 = s.nextDir1 := by
  unfold applyPowerup2
  obtain ⟨x, y, ty⟩ := pu
  cases ty <;> repeat' split
  all_goals first | rfl | simp_all

@[simp] theorem applyPowerup2_dir2 (pu : Powerup) (s : GameState) : (applyPowerup2 pu s).dir2 = s.dir2 := by
  unfold applyPowerup2
  obtain ⟨x, y, ty⟩ := pu
  cases ty <;> repeat' split
  all_goals first | rfl | simp_all

@[simp] theorem applyPowerup2_nextDir2 (pu : Powerup) (s : GameState) : (applyPowerup2 pu s).nextDir2 = s.nextDir2 := by
  unfold applyPowerup2
  obtain ⟨x, y, ty⟩ := pu
  cases ty <;> repeat' split
  all_goals first | rfl | simp_all

@[simp] theorem applyPowerup2_food (pu : Powerup) (s : GameState) : (applyPowerup2 pu s).food = s.food := by
  unfold applyPowerup2
  obtain ⟨x, y, ty⟩ := pu
  cases ty <;> repeat' split
  all_goals first | rfl | simp_all

@[simp] theorem applyPowerup2_powerup (pu : Powerup) (s : GameState) : (applyPowerup2 pu s).powerup = s.powerup := by
  unfold applyPowerup2
  obtain ⟨x, y, ty⟩ := pu
  cases ty <;> repeat' split
  all_goals first | rfl | simp_all

@[simp] theorem applyPowerup2_pacman (pu : Powerup) (s : GameState) : (applyPowerup2 pu s).pacman = s.pacman := by
  unfold applyPowerup2
  obtain ⟨x, y, ty⟩ := pu
  cases ty <;> repeat' split
  all_goals first | rfl | simp_all

@[simp] theorem applyPowerup2_pacmanMoveTick (pu : Powerup) (s : GameState) : (applyPowerup2 pu s).pacmanMoveTick = s.pacmanMoveTick := by
  unfold applyPowerup2
  obtain ⟨x, y, ty⟩ := pu
  cases ty <;> repeat' split
  all_goals first | rfl | simp_all

@[simp] theorem applyPowerup2_scoreP1 (pu : Powerup) (s : GameState) : (applyPowerup2 pu s).scoreP1 = s.scoreP1 := by
  unfold applyPowerup2
  obtain ⟨x, y, ty⟩ := pu
  cases ty <;> repeat' split
  all_goals first | rfl | simp_all

@[simp] theorem applyPowerup2_scoreP2 (pu : Powerup) (s : GameState) : (applyPowerup2 pu s).scoreP2 = s.scoreP2 := by
  unfold applyPowerup2
  obtain ⟨x, y, ty⟩ := pu
  cases ty <;> repeat' split
  all_goals first | rfl | simp_all

@[simp] theorem applyPowerup2_scorePacman (pu : Powerup) (s : GameState) : (applyPowerup2 pu s).scorePacman = s.scorePacman := by
  unfold applyPowerup2
  obtain ⟨x, y, ty⟩ := pu
  cases ty <;> repeat' split
  all_goals first | rfl | simp_all

@[simp] theorem applyPowerup2_deadP1 (pu : Powerup) (s : GameState) : (applyPowerup2 pu s).deadP1 = s.deadP1 := by
  unfold applyPowerup2
  obtain ⟨x, y, ty⟩ := pu
  cases ty <;> repeat' split
  all_goals first | rfl | simp_all

@[simp] theorem applyPowerup2_deadP2 (pu : Powerup) (s : GameState) : (applyPowerup2 pu s).deadP2 = s.deadP2 := by
  unfold applyPowerup2
  obtain ⟨x, y, ty⟩ := pu
  cases ty <;> repeat' split
  all_goals first | rfl | simp_all

@[simp] theorem applyPowerup2_gameOver (pu : Powerup) (s : GameState) : (applyPowerup2 pu s).gameOver = s.gameOver := by
  unfold applyPowerup2
  obtain ⟨x, y, ty⟩ := pu
  cases ty <;> repeat' split
  all_goals first | rfl | simp_all

@[simp] theorem applyPowerup2_events (pu : Powerup) (s : GameState) : (applyPowerup2 pu s).events = s.events := by
  unfold applyPowerup2
  obtain ⟨x, y, ty⟩ := pu
  cases ty <;> repeat' split
  all_goals first | rfl | simp_all

@[simp] theorem applyPowerup2_snake1 (pu : Powerup) (s : GameState) : (applyPowerup2 pu s).snake1 = s.snake1 := by
  unfold applyPowerup2
  obtain ⟨x, y, ty⟩ := pu
  cases ty <;> repeat' split
  all_goals first | rfl | simp_all

theorem applyPowerup1_ghost_ne_zero (pu : Powerup) (s : GameState)
    (h : s.ghostTimer ≠ 0) : (applyPowerup1 pu s).ghostTimer ≠ 0 := by
  unfold applyPowerup1
  obtain ⟨x, y, ty⟩ := pu
  cases ty <;> repeat' split
  all_goals first | exact h | simp [GHOST_DURATION] | simp_all

theorem applyPowerup1_ghost_of_GHOST (pu : Powerup) (s : GameState)
    (h : pu.type = PowerupType.GHOST) : (applyPowerup1 pu s).ghostTimer = GHOST_DURATION := by
  unfold applyPowerup1
  obtain ⟨x, y, ty⟩ := pu
  cases h
  rfl

theorem applyPowerup1_ghost_of_ne_GHOST (pu : Powerup) (s : GameState)
    (h : pu.type ≠ PowerupType.GHOST) : (applyPowerup1 pu s).ghostTimer = s.ghostTimer := by
  unfold applyPowerup1
  obtain ⟨x, y, ty⟩ := pu
  cases ty <;> repeat' split
  all_goals first | rfl | exact absurd rfl h | simp_all

theorem applyPowerup2_ghost_ne_zero (pu : Powerup) (s : GameState)
    (h : s.ghostTimer ≠ 0) : (applyPowerup2 pu s).ghostTimer ≠ 0 := by
  unfold applyPowerup2
  obtain ⟨x, y, ty⟩ := pu
  cases ty <;> repeat' split
  all_goals first | exact h | simp [GHOST_DURATION] | simp_all

theorem applyPowerup2_ghost_of_GHOST (pu : Powerup) (s : GameState)
    (h : pu.type = PowerupType.GHOST) : (applyPowerup2 pu s).ghostTimer = GHOST_DURATION := by
  unfold applyPowerup2
  obtain ⟨x, y, ty⟩ := pu
  cases h
  rfl

theorem applyPowerup2_ghost_of_ne_GHOST (pu : Powerup) (s : GameState)
    (h : pu.type ≠ PowerupType.GHOST) : (applyPowerup2 pu s).ghostTimer = s.ghostTimer := by
  unfold applyPowerup2
  obtain ⟨x, y, ty⟩ := pu
  cases ty <;> repeat' split
  all_goals first | rfl | exact absurd rfl h | simp_all

theorem phaseP2_frame (r : Rand) (fuel : ℕ) (head1 : Point) (s : GameState) (i : ℕ)
    (q : GameState × ℕ) (hq : phaseP2 r fuel head1 s i = some q) :
    q.1.snake1 = s.snake1 ∧ q.1.scoreP1 = s.scoreP1 ∧ q.1.mode = s.mode ∧
    q.1.pacman = s.pacman ∧ q.1.pacmanMoveTick = s.pacmanMoveTick ∧
    q.1.gameOver = s.gameOver ∧
    (s.deadP1 = true → q.1.deadP1 = true) ∧
    (s.powerup = none → q.1.ghostTimer = s.ghostTimer) := by
  unfold phaseP2 at hq
  by_cases hm : s.mode = GameMode.PVP
  · rw [if_pos hm] at hq
    cases hs2 : s.snake2 with
    | nil => rw [hs2] at hq; exact absurd hq (by simp)
    | cons h2 t2 =>
        rw [hs2] at hq
        dsimp only at hq
        repeat' split at hq
        all_goals try rw [Option.map_eq_some'] at hq
        all_goals try obtain ⟨fr, hfr, rfl⟩ := hq
        all_goals try obtain rfl : _ = q := Option.some.inj hq
        all_goals refine ⟨by simp, by simp, by simp, by simp, by simp, by simp, ?_, ?_⟩
        all_goals intro hh
        all_goals simp_all
  · rw [if_neg hm] at hq
    obtain rfl : _ = q := Option.some.inj hq
    simp
set_option maxHeartbeats 1000000 in
theorem phaseAI_deadP1_mono (r : Rand) (fuel : ℕ) (s : GameState) (i : ℕ)
    (q : GameState × ℕ) (hq : phaseAI r fuel s i = some q)
    (hd : s.deadP1 = true) : q.1.deadP1 = true := by
  unfold phaseAI at hq
  cases hp : s.pacman with
  | none =>
      rw [hp] at hq
      obtain rfl : _ = q := Option.some.inj hq
      exact hd
  | some pm =>
      rw [hp] at hq
      dsimp only at hq
      by_cases hm : s.mode = GameMode.PVC
      · rw [if_pos hm] at hq
        split at hq
        · obtain rfl : _ = q := Option.some.inj hq
          exact hd
        · split at hq
          · rw [Option.map_eq_some'] at hq
            obtain ⟨w, hw, rfl⟩ := hq
            split at hw
            · rw [Option.map_eq_some'] at hw
              obtain ⟨fr, hfr, rfl⟩ := hw
              dsimp only
              repeat' split
              all_goals first | rfl | exact hd
            · obtain rfl : _ = w := Option.some.inj hw
              dsimp only
              repeat' split
              all_goals first | rfl | exact hd
          · obtain rfl : _ = q := Option.some.inj hq
            exact hd
      · rw [if_neg hm] at hq
        obtain rfl : _ = q := Option.some.inj hq
        exact hd

theorem phaseP1_deadOut (r : Rand) (fuel : ℕ) (head1 : Point) (s : GameState) (i : ℕ)
    (q : GameState × ℕ) (hq : phaseP1 r fuel head1 s i = some q)
    (hg : s.ghostTimer = 0) (hcc : checkCollision head1 s.snake1 = true) :
    q.1.deadP1 = true := by
  unfold phaseP1 at hq
  rw [hg, hcc] at hq
  simp only [Option.bind_eq_bind, Option.bind_eq_some] at hq
  obtain ⟨a, ha, hq⟩ := hq
  have hdead : a.2.2.1 = true := by
    cases hp : s.pacman with
    | none =>
        rw [hp] at ha
        obtain rfl : _ = a := Option.some.inj ha
        simp
    | some pm =>
        rw [hp] at ha
        dsimp only at ha
        by_cases hgd : s.mode = GameMode.PVC ∧ head1 = pm
        · rw [if_pos hgd] at ha
          by_cases hfz : 0 < s.pacmanFrozen
          · rw [if_pos hfz] at ha
            rw [Option.map_eq_some'] at ha
            obtain ⟨pr, hpr, rfl⟩ := ha
            simp
          · rw [if_neg hfz] at ha
            obtain rfl : _ = a := Option.some.inj ha
            simp
        · rw [if_neg hgd] at ha
          obtain rfl : _ = a := Option.some.inj ha
          simp
  rw [if_pos hdead] at hq
  obtain rfl : _ = q := Option.some.inj hq
  rfl
theorem phaseP1_foodOut (r : Rand) (fuel : ℕ) (head1 : Point) (s : GameState) (i : ℕ)
    (q : GameState × ℕ) (hq : phaseP1 r fuel head1 s i = some q)
    (hmode : s.mode ≠ GameMode.PVC)
    (hc1 : checkCollision head1 s.snake1 = false)
    (hc2 : checkCollision head1 s.snake2 = false)
    (hfood : head1 = s.food) :
    q.1.snake1 = head1 :: s.snake1 ∧ q.1.scoreP1 = s.scoreP1 + 1 ∧ q.1.mode = s.mode := by
  unfold phaseP1 at hq
  rw [hc1, hc2] at hq
  cases hp : s.pacman with
  | none =>
      rw [hp] at hq
      dsimp only at hq
      simp only [Bool.or_self, ite_self, Option.some_bind] at hq
      rw [if_neg Bool.false_ne_true, if_pos hfood] at hq
      simp only [Option.bind_eq_some] at hq
      obtain ⟨fr, hfr, hq⟩ := hq
      split at hq
      · rw [Option.map_eq_some'] at hq
        obtain ⟨pr, hpr, rfl⟩ := hq
        refine ⟨by simp, by simp, by simp⟩
      · obtain rfl : _ = q := Option.some.inj hq
        refine ⟨by simp, by simp, by simp⟩
  | some pm =>
      rw [hp] at hq
      dsimp only at hq
      rw [if_neg (fun hx => hmode hx.1)] at hq
      simp only [Bool.or_self, ite_self, Option.some_bind] at hq
      rw [if_neg Bool.false_ne_true, if_pos hfood] at hq
      simp only [Option.bind_eq_some] at hq
      obtain ⟨fr, hfr, hq⟩ := hq
      split at hq
      · rw [Option.map_eq_some'] at hq
        obtain ⟨pr, hpr, rfl⟩ := hq
        refine ⟨by simp, by simp, by simp⟩
      · obtain rfl : _ = q := Option.some.inj hq
        refine ⟨by simp, by simp, by simp⟩
theorem phaseP1_ghostOut (r : Rand) (fuel : ℕ) (head1 : Point) (s : GameState) (i : ℕ)
    (q : GameState × ℕ) (hq : phaseP1 r fuel head1 s i = some q)
    (hg : ¬ s.ghostTimer = 0) (hmode : s.mode ≠ GameMode.PVC) :
    q.1.deadP1 = s.deadP1 ∧ ¬ q.1.ghostTimer = 0 ∧ q.1.mode = s.mode ∧
    q.1.snake2 = s.snake2 ∧ q.1.dir2 = s.dir2 ∧ q.1.deadP2 = s.deadP2 := by
  unfold phaseP1 at hq
  rw [if_neg hg] at hq
  cases hp : s.pacman with
  | none =>
      rw [hp] at hq
      dsimp only at hq
      simp only [Option.some_bind] at hq
      rw [if_neg Bool.false_ne_true] at hq
      split at hq
      · simp only [Option.bind_eq_some] at hq
        obtain ⟨fr, hfr, hq⟩ := hq
        split at hq
        · rw [Option.map_eq_some'] at hq
          obtain ⟨pr, hpr, rfl⟩ := hq
          refine ⟨by simp, by simpa using hg, by simp, by simp, by simp, by simp⟩
        · obtain rfl : _ = q := Option.some.inj hq
          refine ⟨by simp, by simpa using hg, by simp, by simp, by simp, by simp⟩
      · repeat' split at hq
        all_goals try obtain rfl : _ = q := Option.some.inj hq
        all_goals refine ⟨by simp, ?_, by simp, by simp, by simp, by simp⟩
        all_goals first
          | exact applyPowerup1_ghost_ne_zero _ _ (by simpa using hg)
          | (simpa using hg)
  | some pm =>
      rw [hp] at hq
      dsimp only at hq
      rw [if_neg (fun hx => hmode hx.1)] at hq
      simp only [Option.some_bind] at hq
      rw [if_neg Bool.false_ne_true] at hq
      split at hq
      · simp only [Option.bind_eq_some] at hq
        obtain ⟨fr, hfr, hq⟩ := hq
        split at hq
        · rw [Option.map_eq_some'] at hq
          obtain ⟨pr, hpr, rfl⟩ := hq
          refine ⟨by simp, by simpa using hg, by simp, by simp, by simp, by simp⟩
        · obtain rfl : _ = q := Option.some.inj hq
          refine ⟨by simp, by simpa using hg, by simp, by simp, by simp, by simp⟩
      · repeat' split at hq
        all_goals try obtain rfl : _ = q := Option.some.inj hq
        all_goals refine ⟨by simp, ?_, by simp, by simp, by simp, by simp⟩
        all_goals first
          | exact applyPowerup1_ghost_ne_zero _ _ (by simpa using hg)
          | (simpa using hg)
theorem phaseP2_ghostOut (r : Rand) (fuel : ℕ) (head1 : Point) (s : GameState) (i : ℕ)
    (q : GameState × ℕ) (hq : phaseP2 r fuel head1 s i = some q)
    (hg : ¬ s.ghostTimer = 0) (hmode : s.mode = GameMode.PVP) :
    q.1.deadP1 = s.deadP1 ∧ q.1.deadP2 = false := by
  unfold phaseP2 at hq
  rw [if_pos hmode] at hq
  cases hs2 : s.snake2 with
  | nil => rw [hs2] at hq; exact absurd hq (by simp)
  | cons h2 t2 =>
      rw [hs2] at hq
      dsimp only at hq
      rw [if_neg hg] at hq
      simp only [decide_eq_true_eq, Bool.and_eq_true, decide_eq_false hg] at hq
      simp only [Bool.false_and, Bool.or_false] at hq
      rw [if_neg Bool.false_ne_true] at hq
      repeat' split at hq
      all_goals try rw [Option.map_eq_some'] at hq
      all_goals try obtain ⟨fr, hfr, rfl⟩ := hq
      all_goals try obtain rfl : _ = q := Option.some.inj hq
      all_goals exact ⟨by simp, by simp⟩
@[simp] theorem commitState_mode (s : GameState) : (commitState s).mode = s.mode := rfl

@[simp] theorem commitState_snake1 (s : GameState) : (commitState s).snake1 = s.snake1 := rfl

@[simp] theorem commitState_snake2 (s : GameState) : (commitState s).snake2 = s.snake2 := rfl

@[simp] theorem commitState_food (s : GameState) : (commitState s).food = s.food := rfl

@[simp] theorem commitState_powerup (s : GameState) : (commitState s).powerup = s.powerup := rfl

@[simp] theorem commitState_pacman (s : GameState) : (commitState s).pacman = s.pacman := rfl

@[simp] theorem commitState_pacmanFrozen (s : GameState) : (commitState s).pacmanFrozen = s.pacmanFrozen := rfl

@[simp] theorem commitState_ghostTimer (s : GameState) : (commitState s).ghostTimer = s.ghostTimer := rfl

@[simp] theorem commitState_pacmanMoveTick (s : GameState) : (commitState s).pacmanMoveTick = s.pacmanMoveTick := rfl

@[simp] theorem commitState_scoreP1 (s : GameState) : (commitState s).scoreP1 = s.scoreP1 := rfl

@[simp] theorem commitState_scoreP2 (s : GameState) : (commitState s).scoreP2 = s.scoreP2 := rfl

@[simp] theorem commitState_gameOver (s : GameState) : (commitState s).gameOver = s.gameOver := rfl

@[simp] theorem commitState_deadP1 (s : GameState) : (commitState s).deadP1 = false := rfl

@[simp] theorem commitState_deadP2 (s : GameState) : (commitState s).deadP2 = false := rfl

@[simp] theorem commitState_events (s : GameState) : (commitState s).events = [] := rfl

@[simp] theorem commitState_dir1 (s : GameState) : (commitState s).dir1 = s.nextDir1 := rfl

@[simp] theorem commitState_nextDir1 (s : GameState) : (commitState s).nextDir1 = s.nextDir1 := rfl

@[simp] theorem commitState_nextDir2 (s : GameState) : (commitState s).nextDir2 = s.nextDir2 := rfl

theorem commitState_dir2_pvp (s : GameState) (h : s.mode = GameMode.PVP) :
    (commitState s).dir2 = s.nextDir2 := by
  simp [commitState, h]

theorem movePhase_decomp (r : Rand) (fuel : ℕ) (s : GameState) (x : GameState)
    (h : movePhase r fuel s = some x) :
    ∃ h1 t q1 q2 q3,
      s.snake1 = h1 :: t ∧
      phaseP1 r fuel (nextHead h1 s.nextDir1) (commitState s) 0 = some q1 ∧
      phaseP2 r fuel (nextHead h1 s.nextDir1) q1.1 q1.2 = some q2 ∧
      phaseAI r fuel q2.1 q2.2 = some q3 ∧
      x = phaseEnd q3.1 := by
  unfold movePhase at h
  cases hs : s.snake1 with
  | nil => rw [hs] at h; exact absurd h (by simp)
  | cons h1 t =>
      rw [hs] at h
      simp only [Option.bind_eq_bind] at h
      cases hq1 : phaseP1 r fuel (nextHead h1 s.nextDir1) (commitState s) 0 with
      | none => rw [hq1] at h; simp at h
      | some q1 =>
          rw [hq1] at h
          simp only [Option.some_bind] at h
          cases hq2 : phaseP2 r fuel (nextHead h1 s.nextDir1) q1.1 q1.2 with
          | none => rw [hq2] at h; simp at h
          | some q2 =>
              rw [hq2] at h
              simp only [Option.some_bind] at h
              cases hq3 : phaseAI r fuel q2.1 q2.2 with
              | none => rw [hq3] at h; simp at h
              | some q3 =>
                  rw [hq3] at h
                  simp only [Option.map_some'] at h
                  exact ⟨h1, t, q1, q2, q3, rfl, hq1, hq2, hq3, (Option.some.inj h).symm⟩
/-- C4 (amended): `wrap` agrees with the mathematical modulus exactly on the
values it is applied to — a coordinate in `[0, limit)` plus a unit delta,
i.e. `-1 ≤ v ≤ limit` — and on that range the result is non-negative and
below the limit, with `wrap (-1) = limit - 1` and `wrap limit = 0`. (On other
integers `wrap` clamps rather than reduces, see the counterexample.) -/
theorem C4_amended (v lim : Int) (hpos : 0 < lim) (hlo : -1 ≤ v) (hhi : v ≤ lim) :
    wrap v lim = v % lim ∧ 0 ≤ wrap v lim ∧ wrap v lim < lim ∧
    wrap (-1) lim = lim - 1 ∧ wrap lim lim = 0 := by
  have hmod : wrap v lim = v % lim := by
    unfold wrap
    split_ifs with ha hb
    · have hv : v = -1 := by omega
      subst hv
      have e1 : (-1 + lim * 1) % lim = (-1 : Int) % lim := Int.add_mul_emod_self_left (-1) lim 1
      have e2 : (-1 + lim * 1 : Int) = lim - 1 := by ring
      have e3 : (lim - 1) % lim = lim - 1 := Int.emod_eq_of_lt (by omega) (by omega)
      conv_rhs => rw [← e1, e2, e3]
    · have hv : v = lim := by omega
      subst hv
      exact Int.emod_self.symm
    · exact (Int.emod_eq_of_lt (by omega) (by omega)).symm
  refine ⟨hmod, ?_, ?_, ?_, ?_⟩
  · unfold wrap
    split_ifs <;> omega
  · unfold wrap
    split_ifs <;> omega
  · unfold wrap
    split_ifs <;> omega
  · unfold wrap
    split_ifs <;> omega

/-- Witness for C4: the amended statement at `v = -1`, `limit = 30`. -/
theorem C4_witness :
    wrap (-1) 30 = (-1 : Int) % 30 ∧ 0 ≤ wrap (-1) 30 ∧ wrap (-1) 30 < 30 ∧
    wrap (-1) 30 = 30 - 1 ∧ wrap 30 30 = 0 :=
  C4_amended (-1) 30 (by norm_num) (by norm_num) (by norm_num)

/-- C8: the toroidal delta of the chaser AI is antisymmetric on grid
coordinates and bounded by half the axis size: for `0 ≤ a, b < limit`,
`toroidalDelta a b = -(toroidalDelta b a)` and `2 * |toroidalDelta a b| ≤ limit`
(the integer form of `|delta| ≤ limit / 2`). -/
theorem C8_toroidalDelta (a b lim : Int)
    (ha0 : 0 ≤ a) (ha : a < lim) (hb0 : 0 ≤ b) (hb : b < lim) :
    toroidalDelta a b lim = - toroidalDelta b a lim ∧
    2 * jsAbs (toroidalDelta a b lim) ≤ lim := by
  simp only [toroidalDelta, jsAbs]
  split_ifs <;> constructor <;> omega

/-- Witness for C8 at `a = 1`, `b = 28` on the 30-cell axis (the wrap-around
direction is shorter). -/
theorem C8_witness :
    toroidalDelta 1 28 30 = - toroidalDelta 28 1 30 ∧
    2 * jsAbs (toroidalDelta 1 28 30) ≤ 30 :=
  C8_toroidalDelta 1 28 30 (by norm_num) (by norm_num) (by norm_num) (by norm_num)

/-- C9 (amended): `placeItem` is blind rejection sampling with no grid
exhaustion: it returns a cell as soon as the random stream proposes one
outside the exclusion list — so it terminates exactly when that eventually
happens within the iteration bound, and on a saturated grid it loops forever
(see the counterexample). -/
theorem C9_amended (r : ℕ → ℕ × ℕ) (excl : List Point) (k i fuel : ℕ)
    (hfree : checkCollision (sampleCell r (i + k)) excl = false)
    (hlt : k < fuel) :
    (placeItemFuel r excl i fuel).isSome = true :=
  placeItemFuel_isSome_of_free r excl k i fuel hfree hlt

/-- Witness for C9: a stream whose first sample `(0, 0)` is free of the
exclusion list `[(1, 1)]` makes the loop return within one iteration. -/
theorem C9_witness :
    (placeItemFuel (fun _ => (0, 0)) [⟨1, 1⟩] 0 1).isSome = true :=
  C9_amended (fun _ => (0, 0)) [⟨1, 1⟩] 0 0 1 (by decide) (by decide)

/-- C7 (amended): a placement call never returns a cell on the exclusion
list it was given — but only on that list: at round start the list holds the
snakes and the chaser; after a snake eats it holds both snakes and the
powerup but not the chaser; after the chaser eats it holds only the player's
body (so food may then spawn on the powerup or the chaser, see the
counterexample). -/
theorem C7_amended (rc : ℕ → ℕ × ℕ) (excl : List Point) (i fuel : ℕ)
    (p : Point) (j : ℕ) (h : placeItemFuel rc excl i fuel = some (p, j)) :
    checkCollision p excl = false ∧ p ∉ excl := by
  have hcc := placeItemFuel_not_mem rc excl fuel i p j h
  exact ⟨hcc, (checkCollision_eq_false_iff p excl).mp hcc⟩

/-- Witness for C7: a concrete placement avoiding the one-cell exclusion
list `[(0, 0)]`. -/
theorem C7_witness :
    checkCollision ⟨2, 3⟩ [(⟨0, 0⟩ : Point)] = false ∧ (⟨2, 3⟩ : Point) ∉ [(⟨0, 0⟩ : Point)] :=
  C7_amended (fun _ => (2, 3)) [⟨0, 0⟩] 0 1 ⟨2, 3⟩ 1 (by decide)

/-- C5 (amended): an intent is accepted exactly when it lies on the axis
perpendicular to the committed direction — for unit directions, exactly when
it is neither the committed direction itself nor its direct opposite (the
original claim admitted resubmitting the same direction; the guard rejects
it, see the counterexample). Rejection is a silent no-op on the pending
direction, and the no-reversal invariant holds: after any sequence of
submissions the pending direction committed by the next tick is never the
opposite of the current committed direction. -/
theorem C5_amended (committed pending intent : Point) (intents : List Point)
    (hc : isUnitDir committed) (hi : isUnitDir intent)
    (hp : pending ≠ opposite committed) :
    (accepts committed intent ↔ (intent ≠ committed ∧ intent ≠ opposite committed)) ∧
    intents.foldl (submitIntent committed) pending ≠ opposite committed := by
  constructor
  · rcases hc with rfl | rfl | rfl | rfl <;> rcases hi with rfl | rfl | rfl | rfl <;> decide
  · clear hi
    revert hp
    induction intents generalizing pending with
    | nil =>
        intro hp
        simpa using hp
    | cons a as ih =>
        intro hp
        rw [List.foldl_cons]
        apply ih
        unfold submitIntent
        split_ifs with hacc
        · unfold accepts at hacc
          by_cases hax : a.x = 0
          · rw [if_pos hax] at hacc
            intro hEq
            rw [hEq] at hax
            unfold opposite at hax
            dsimp only at hax
            rcases hc with rfl | rfl | rfl | rfl <;> simp_all
          · rw [if_neg hax] at hacc
            intro hEq
            rw [hEq] at hax
            unfold opposite at hax
            dsimp only at hax
            rcases hc with rfl | rfl | rfl | rfl <;> simp_all
        · exact hp

/-- Witness for C5: committed direction up, pending right; the acceptance
characterisation at intent right, and the no-reversal invariant after
submitting down then left. -/
theorem C5_witness :
    (accepts ⟨0, -1⟩ ⟨1, 0⟩ ↔
      ((⟨1, 0⟩ : Point) ≠ ⟨0, -1⟩ ∧ (⟨1, 0⟩ : Point) ≠ opposite ⟨0, -1⟩)) ∧
    [(⟨0, 1⟩ : Point), ⟨-1, 0⟩].foldl (submitIntent ⟨0, -1⟩) ⟨1, 0⟩ ≠ opposite ⟨0, -1⟩ :=
  C5_amended ⟨0, -1⟩ ⟨1, 0⟩ ⟨1, 0⟩ [⟨0, 1⟩, ⟨-1, 0⟩] (by decide) (by decide) (by decide)

/-- C1 (amended): there is no vacated-tail exemption — whenever the Ghost
timer is inactive and a snake's computed next head lands on any cell of its
own current body, the tail included (even when the move eats nothing, so the
tail would be vacated this tick), the self-collision check marks the snake
dead and the tick ends the round. -/
theorem C1_amended (r : Rand) (fuel : ℕ) (s : GameState) (h1 : Point) (t : List Point)
    (hs1 : s.snake1 = h1 :: t)
    (hg : s.ghostTimer = 0)
    (hcc : checkCollision (nextHead h1 s.nextDir1) s.snake1 = true)
    (hsome : (tick r fuel s).isSome = true) :
    (tick r fuel s).map (fun u => u.deadP1) = some true ∧
    (tick r fuel s).map (fun u => u.gameOver) = some true := by
  obtain ⟨x, hx⟩ := Option.isSome_iff_exists.mp hsome
  have hx' : movePhase r fuel (tickTimers s) = some x := hx
  obtain ⟨h1', t', q1, q2, q3, hsnake, hq1, hq2, hq3, rfl⟩ :=
    movePhase_decomp r fuel (tickTimers s) x hx'
  rw [tickTimers_snake1, hs1] at hsnake
  injection hsnake with e1 e2
  subst e1
  subst e2
  rw [tickTimers_nextDir1] at hq1
  have hd1 : q1.1.deadP1 = true := by
    refine phaseP1_deadOut r fuel _ _ 0 q1 hq1 ?_ ?_
    · show (tickTimers s).ghostTimer = 0
      exact tickTimers_ghost_of_zero s hg
    · show checkCollision (nextHead h1 s.nextDir1) (tickTimers s).snake1 = true
      rw [tickTimers_snake1]
      exact hcc
  have hd2 : q2.1.deadP1 = true := by
    obtain ⟨-, -, -, -, -, -, hmono, -⟩ := phaseP2_frame r fuel _ _ _ q2 hq2
    exact hmono hd1
  have hd3 : q3.1.deadP1 = true := phaseAI_deadP1_mono r fuel _ _ q3 hq3 hd2
  rw [hx]
  constructor
  · simp [hd3]
  · simp [phaseEnd_gameOver_of_dead _ hd3]

/-- Witness for C1 (amended) at the tail-chasing state `stC1`: the next head
is the snake's own tail cell and the snake dies. -/
theorem C1_witness :
    (tick randZero 5 stC1).map (fun u => u.deadP1) = some true ∧
    (tick randZero 5 stC1).map (fun u => u.gameOver) = some true :=
  C1_amended randZero 5 stC1 ⟨5, 5⟩ [⟨5, 4⟩, ⟨6, 4⟩, ⟨6, 5⟩]
    (by decide) (by decide) (by decide) (by decide)

/-- C2 (amended): the head-to-head draw applies only while the Ghost timer is
inactive — in a two-player tick with no ghost, no active powerup, and a plain
move for player 1, coinciding computed next heads kill both snakes and end
the round; an active Ghost timer suppresses the head-to-head outcome along
with the other collision outcomes (see the counterexample). -/
theorem C2_amended (r : Rand) (fuel : ℕ) (s : GameState)
    (h1 : Point) (t1 : List Point) (h2 : Point) (t2 : List Point)
    (hmode : s.mode = GameMode.PVP)
    (hs1 : s.snake1 = h1 :: t1)
    (hs2 : s.snake2 = h2 :: t2)
    (hg : s.ghostTimer = 0)
    (hpu : s.powerup = none)
    (hc1 : checkCollision (nextHead h1 s.nextDir1) s.snake1 = false)
    (hc2 : checkCollision (nextHead h1 s.nextDir1) s.snake2 = false)
    (hfood : nextHead h1 s.nextDir1 ≠ s.food)
    (hhh : nextHead h1 s.nextDir1 = nextHead h2 s.nextDir2)
    (hsome : (tick r fuel s).isSome = true) :
    (tick r fuel s).map (fun u => u.deadP1) = some true ∧
    (tick r fuel s).map (fun u => u.deadP2) = some true ∧
    (tick r fuel s).map (fun u => u.gameOver) = some true := by
  obtain ⟨x, hx⟩ := Option.isSome_iff_exists.mp hsome
  have hx' : movePhase r fuel (tickTimers s) = some x := hx
  obtain ⟨h1', t', q1, q2, q3, hsnake, hq1, hq2, hq3, rfl⟩ :=
    movePhase_decomp r fuel (tickTimers s) x hx'
  rw [tickTimers_snake1, hs1] at hsnake
  injection hsnake with e1 e2
  subst e1
  subst e2
  rw [tickTimers_nextDir1] at hq1 hq2
  have hplain := phaseP1_plain r fuel (nextHead h1 s.nextDir1) (commitState (tickTimers s)) 0
    (by simp [tickTimers_mode, hmode]) (by simp [tickTimers_snake1]; exact hc1)
    (by simp [tickTimers_snake2]; exact hc2) (by simp [tickTimers_food]; exact hfood)
    (by simp [tickTimers_powerup, hpu, powerupAt])
  rw [hplain] at hq1
  have hq1eq := Option.some.inj hq1
  have hm1 : q1.1.mode = GameMode.PVP := by
    rw [← hq1eq]
    simp [tickTimers_mode, hmode]
  have hsn2 : q1.1.snake2 = h2 :: t2 := by
    rw [← hq1eq]
    simp only []
    rw [show ({ commitState (tickTimers s) with
          snake1 := (nextHead h1 s.nextDir1 ::
            (commitState (tickTimers s)).snake1).dropLast } : GameState).snake2 =
        (tickTimers s).snake2 from rfl, tickTimers_snake2]
    exact hs2
  have hg1 : q1.1.ghostTimer = 0 := by
    rw [← hq1eq]
    show (tickTimers s).ghostTimer = 0
    exact tickTimers_ghost_of_zero s hg
  have hd21 : q1.1.dir2 = s.nextDir2 := by
    rw [← hq1eq]
    show (commitState (tickTimers s)).dir2 = s.nextDir2
    rw [commitState_dir2_pvp _ (by rw [tickTimers_mode]; exact hmode), tickTimers_nextDir2]
  have hh2 := phaseP2_hh r fuel (nextHead h1 s.nextDir1) q1.1 q1.2 h2 t2 hm1 hsn2 hg1
    (by rw [hd21]; exact hhh)
  rw [hh2] at hq2
  have hq2eq := Option.some.inj hq2
  have hdq2a : q2.1.deadP1 = true := by rw [← hq2eq]
  have hdq2b : q2.1.deadP2 = true := by rw [← hq2eq]
  have hmq2 : q2.1.mode = GameMode.PVP := by
    rw [← hq2eq]
    exact hm1
  rw [phaseAI_notPVC r fuel _ _ (by rw [hmq2]; decide)] at hq3
  have hq3eq := Option.some.inj hq3
  have hdq3a : q3.1.deadP1 = true := by rw [← hq3eq]; exact hdq2a
  have hdq3b : q3.1.deadP2 = true := by rw [← hq3eq]; exact hdq2b
  rw [hx]
  refine ⟨by simp [hdq3a], by simp [hdq3b], by simp [phaseEnd_gameOver_of_dead _ hdq3a]⟩

/-- Witness for C2 (amended): the head-on state `stC2` with the ghost timer
set to zero — both snakes die and the round ends. -/
theorem C2_witness :
    (tick randZero 5 { stC2 with ghostTimer := 0 }).map (fun u => u.deadP1) = some true ∧
    (tick randZero 5 { stC2 with ghostTimer := 0 }).map (fun u => u.deadP2) = some true ∧
    (tick randZero 5 { stC2 with ghostTimer := 0 }).map (fun u => u.gameOver) = some true :=
  C2_amended randZero 5 { stC2 with ghostTimer := 0 } ⟨10, 10⟩ [⟨9, 10⟩] ⟨12, 10⟩ [⟨13, 10⟩]
    (by decide) (by decide) (by decide) (by decide) (by decide) (by decide) (by decide)
    (by decide) (by decide) (by decide)

/-- C3 (amended): for a two-player tick in which player 1 passes its
collision checks — if the new head coincides with food, body length and
player-1 score each grow by exactly 1; a move that coincides with neither
food nor the active powerup leaves the body length unchanged. A move onto a
powerup skips the tail pop and so can change the length as well — the FREEZE
counterexample grows the body by 1 — so food moves are not the only
length-changing moves. -/
theorem C3_amended (r : Rand) (fuel : ℕ) (s : GameState) (h1 : Point) (t : List Point)
    (hmode : s.mode = GameMode.PVP)
    (hs1 : s.snake1 = h1 :: t)
    (hc1 : checkCollision (nextHead h1 s.nextDir1) s.snake1 = false)
    (hc2 : checkCollision (nextHead h1 s.nextDir1) s.snake2 = false)
    (hsome : (tick r fuel s).isSome = true) :
    (nextHead h1 s.nextDir1 = s.food →
      (tick r fuel s).map (fun u => u.snake1.length) = some (s.snake1.length + 1) ∧
      (tick r fuel s).map (fun u => u.scoreP1) = some (s.scoreP1 + 1)) ∧
    (nextHead h1 s.nextDir1 ≠ s.food →
      powerupAt s.powerup (nextHead h1 s.nextDir1) = false →
      (tick r fuel s).map (fun u => u.snake1.length) = some s.snake1.length) := by
  obtain ⟨x, hx⟩ := Option.isSome_iff_exists.mp hsome
  have hx' : movePhase r fuel (tickTimers s) = some x := hx
  obtain ⟨h1', t', q1, q2, q3, hsnake, hq1, hq2, hq3, rfl⟩ :=
    movePhase_decomp r fuel (tickTimers s) x hx'
  rw [tickTimers_snake1, hs1] at hsnake
  injection hsnake with e1 e2
  subst e1
  subst e2
  rw [tickTimers_nextDir1] at hq1 hq2
  obtain ⟨hs2pres, hsc2pres, hm2pres, -, -, -, -, -⟩ := phaseP2_frame r fuel _ _ _ q2 hq2
  by_cases hfood : nextHead h1 s.nextDir1 = s.food
  · obtain ⟨hsn, hsc, hmo⟩ := phaseP1_foodOut r fuel _ _ 0 q1 hq1
      (by show (tickTimers s).mode ≠ _
          rw [tickTimers_mode, hmode]
          decide)
      (by show checkCollision _ (tickTimers s).snake1 = false
          rw [tickTimers_snake1]
          exact hc1)
      (by show checkCollision _ (tickTimers s).snake2 = false
          rw [tickTimers_snake2]
          exact hc2)
      (by show nextHead h1 s.nextDir1 = (tickTimers s).food
          rw [tickTimers_food]
          exact hfood)
    have hmq2 : q2.1.mode ≠ GameMode.PVC := by
      rw [hm2pres, hmo]
      show (tickTimers s).mode ≠ _
      rw [tickTimers_mode, hmode]
      decide
    rw [phaseAI_notPVC r fuel _ _ hmq2] at hq3
    have hq3eq := Option.some.inj hq3
    refine ⟨fun _ => ⟨?_, ?_⟩, fun hne _ => absurd hfood hne⟩
    · rw [hx]
      simp only [Option.map_some', phaseEnd_snake1]
      rw [← hq3eq]
      show some q2.1.snake1.length = _
      rw [hs2pres, hsn]
      simp only [List.length_cons, commitState_snake1, tickTimers_snake1]
    · rw [hx]
      simp only [Option.map_some', phaseEnd_scoreP1]
      rw [← hq3eq]
      show some q2.1.scoreP1 = _
      rw [hsc2pres, hsc]
      simp only [commitState_scoreP1, tickTimers_scoreP1]
  · refine ⟨fun hf => absurd hf hfood, fun _ hpuAt => ?_⟩
    have hplain := phaseP1_plain r fuel (nextHead h1 s.nextDir1) (commitState (tickTimers s)) 0
      (by show (tickTimers s).mode ≠ _
          rw [tickTimers_mode, hmode]
          decide)
      (by show checkCollision _ (tickTimers s).snake1 = false
          rw [tickTimers_snake1]
          exact hc1)
      (by show checkCollision _ (tickTimers s).snake2 = false
          rw [tickTimers_snake2]
          exact hc2)
      (by show nextHead h1 s.nextDir1 ≠ (tickTimers s).food
          rw [tickTimers_food]
          exact hfood)
      (by show powerupAt (tickTimers s).powerup _ = false
          rw [tickTimers_powerup]
          exact hpuAt)
    rw [hplain] at hq1
    have hq1eq := Option.some.inj hq1
    have hsn1 : q1.1.snake1.length = s.snake1.length := by
      rw [← hq1eq]
      show ((nextHead h1 s.nextDir1 :: (commitState (tickTimers s)).snake1).dropLast).length = _
      rw [List.length_dropLast, List.length_cons]
      simp only [commitState_snake1, tickTimers_snake1]
      omega
    have hmq2 : q2.1.mode ≠ GameMode.PVC := by
      rw [hm2pres, ← hq1eq]
      show (tickTimers s).mode ≠ _
      rw [tickTimers_mode, hmode]
      decide
    rw [phaseAI_notPVC r fuel _ _ hmq2] at hq3
    have hq3eq := Option.some.inj hq3
    rw [hx]
    simp only [Option.map_some', phaseEnd_snake1]
    rw [← hq3eq]
    show some q2.1.snake1.length = _
    rw [hs2pres, hsn1]

/-- Witness for C3 (amended): growth on food at a two-player state whose
snake 1 moves onto the food cell, and length preservation on the plain move
of `stC2` with the ghost timer cleared. -/
theorem C3_witness :
    ((nextHead ⟨5, 5⟩ stC3f.nextDir1 = stC3f.food →
      (tick randZero 5 stC3f).map (fun u => u.snake1.length) = some (stC3f.snake1.length + 1) ∧
      (tick randZero 5 stC3f).map (fun u => u.scoreP1) = some (stC3f.scoreP1 + 1)) ∧
    (nextHead ⟨5, 5⟩ stC3f.nextDir1 ≠ stC3f.food →
      powerupAt stC3f.powerup (nextHead ⟨5, 5⟩ stC3f.nextDir1) = false →
      (tick randZero 5 stC3f).map (fun u => u.snake1.length) = some stC3f.snake1.length)) :=
  C3_amended randZero 5 stC3f ⟨5, 5⟩ [⟨5, 6⟩] (by decide) (by decide) (by decide) (by decide)
    (by decide)

/-- C6 (amended): when the chaser is frozen, the player's computed next head
equals the chaser's cell, the move hits nothing else, and the chaser phase
does not run this tick (odd chaser parity after the increment), the
consumption completes exactly as claimed: +5 bonus score, the chaser
respawns on a cell outside the exclusion list (the player's body, the food
and the powerup), the freeze timer clears to 0, an agent-consumed event is
emitted, the player survives and the round continues. (When the chaser phase
does run, the respawned chaser can kill the player in the same tick — see
the counterexample.) -/
theorem C6_amended (r : Rand) (fuel : ℕ) (s : GameState)
    (h1 : Point) (t : List Point) (pm : Point)
    (hmode : s.mode = GameMode.PVC)
    (hs1 : s.snake1 = h1 :: t)
    (hpm : s.pacman = some pm)
    (hfz : 0 < s.pacmanFrozen)
    (hhead : nextHead h1 s.nextDir1 = pm)
    (hc1 : checkCollision (nextHead h1 s.nextDir1) s.snake1 = false)
    (hs2 : s.snake2 = [])
    (hfood : nextHead h1 s.nextDir1 ≠ s.food)
    (hpuAt : powerupAt s.powerup (nextHead h1 s.nextDir1) = false)
    (hpar : s.pacmanMoveTick % 2 = 0)
    (hgo : s.gameOver = false)
    (hsome : (tick r fuel s).isSome = true) :
    (tick r fuel s).map (fun u => u.scoreP1) = some (s.scoreP1 + 5) ∧
    (tick r fuel s).map (fun u => u.pacmanFrozen) = some 0 ∧
    (tick r fuel s).map (fun u => u.deadP1) = some false ∧
    (tick r fuel s).map (fun u => u.gameOver) = some false ∧
    (tick r fuel s).map (fun u => decide (GEvent.agentConsumed ∈ u.events)) = some true ∧
    (tick r fuel s).map
        (fun u => u.pacman.map fun p =>
          checkCollision p (s.snake1 ++ [s.food] ++ puList s.powerup)) =
      some (some false) := by
  obtain ⟨x, hx⟩ := Option.isSome_iff_exists.mp hsome
  have hx' : movePhase r fuel (tickTimers s) = some x := hx
  obtain ⟨h1', t', q1, q2, q3, hsnake, hq1, hq2, hq3, rfl⟩ :=
    movePhase_decomp r fuel (tickTimers s) x hx'
  rw [tickTimers_snake1, hs1] at hsnake
  injection hsnake with e1 e2
  subst e1
  subst e2
  rw [tickTimers_nextDir1] at hq1 hq2
  have hcons := phaseP1_consume r fuel (nextHead h1 s.nextDir1)
    (commitState (tickTimers s)) 0 pm
    (by show (tickTimers s).mode = _
        rw [tickTimers_mode]
        exact hmode)
    (by show checkCollision _ (tickTimers s).snake1 = false
        rw [tickTimers_snake1]
        exact hc1)
    (by show checkCollision _ (tickTimers s).snake2 = false
        rw [tickTimers_snake2, hs2]
        rfl)
    (by show (tickTimers s).pacman = some pm
        rw [tickTimers_pacman]
        exact hpm)
    (by show 0 < (tickTimers s).pacmanFrozen
        rw [tickTimers_pacmanFrozen]
        exact hfz)
    hhead
    (by show nextHead h1 s.nextDir1 ≠ (tickTimers s).food
        rw [tickTimers_food]
        exact hfood)
    (by show powerupAt (tickTimers s).powerup _ = false
        rw [tickTimers_powerup]
        exact hpuAt)
  rw [hcons] at hq1
  rw [Option.map_eq_some'] at hq1
  obtain ⟨pr, hpr, hq1eq⟩ := hq1
  have hexcl : (commitState (tickTimers s)).snake1 ++ [(commitState (tickTimers s)).food] ++
      puList (commitState (tickTimers s)).powerup =
      s.snake1 ++ [s.food] ++ puList s.powerup := by
    simp only [commitState_snake1, commitState_food, commitState_powerup,
      tickTimers_snake1, tickTimers_food, tickTimers_powerup]
  rw [hexcl] at hpr
  have hfree := placeItemFuel_not_mem r.cells _ fuel 0 pr.1 pr.2 (by rw [← hpr])
  have hmq1 : q1.1.mode = GameMode.PVC := by
    rw [← hq1eq]
    show (tickTimers s).mode = _
    rw [tickTimers_mode]
    exact hmode
  rw [phaseP2_skip r fuel _ _ _ (by rw [hmq1]; decide)] at hq2
  have hq2eq := Option.some.inj hq2
  have hpm2 : q2.1.pacman = some pr.1 := by
    rw [← hq2eq, ← hq1eq]
  have hmq2 : q2.1.mode = GameMode.PVC := by
    rw [← hq2eq]
    exact hmq1
  have hfz2 : ¬ 0 < q2.1.pacmanFrozen := by
    rw [← hq2eq, ← hq1eq]
    show ¬ (0 : Int) < 0
    decide
  have hmt2 : q2.1.pacmanMoveTick = s.pacmanMoveTick := by
    rw [← hq2eq, ← hq1eq]
    show (tickTimers s).pacmanMoveTick = _
    exact tickTimers_pacmanMoveTick s
  rw [phaseAI_parity r fuel q2.1 q2.2 pr.1 hpm2 hmq2 hfz2
    (by rw [hmt2]; omega)] at hq3
  have hq3eq := Option.some.inj hq3
  have hsc3 : q3.1.scoreP1 = s.scoreP1 + 5 := by
    rw [← hq3eq]
    show q2.1.scoreP1 = _
    rw [← hq2eq, ← hq1eq]
    show (tickTimers s).scoreP1 + 5 = _
    rw [tickTimers_scoreP1]
  have hfz3 : q3.1.pacmanFrozen = 0 := by
    rw [← hq3eq]
    show q2.1.pacmanFrozen = 0
    rw [← hq2eq, ← hq1eq]
  have hd3 : q3.1.deadP1 = false := by
    rw [← hq3eq]
    show q2.1.deadP1 = false
    rw [← hq2eq, ← hq1eq]
    rfl
  have hd3b : q3.1.deadP2 = false := by
    rw [← hq3eq]
    show q2.1.deadP2 = false
    rw [← hq2eq, ← hq1eq]
    rfl
  have hgo3 : q3.1.gameOver = false := by
    rw [← hq3eq]
    show q2.1.gameOver = false
    rw [← hq2eq, ← hq1eq]
    show (tickTimers s).gameOver = false
    rw [tickTimers_gameOver]
    exact hgo
  have hev3 : q3.1.events = [GEvent.agentConsumed] := by
    rw [← hq3eq]
    show q2.1.events = _
    rw [← hq2eq, ← hq1eq]
    rfl
  have hpm3 : q3.1.pacman = some pr.1 := by
    rw [← hq3eq]
    show q2.1.pacman = _
    exact hpm2
  rw [hx]
  refine ⟨?_, ?_, ?_, ?_, ?_, ?_⟩
  · simp only [Option.map_some', phaseEnd_scoreP1, hsc3]
  · simp only [Option.map_some', phaseEnd_pacmanFrozen, hfz3]
  · simp only [Option.map_some', phaseEnd_deadP1, hd3]
  · simp only [Option.map_some', phaseEnd_gameOver_of_alive _ hd3 hd3b, hgo3]
  · simp only [Option.map_some', phaseEnd_events, hev3]
    decide
  · simp only [Option.map_some', phaseEnd_pacman, hpm3, Option.map_some', hfree]

/-- Witness for C6 (amended) at `stC6good` (even pre-tick chaser parity, so
the chaser phase skips after the consumption). -/
theorem C6_witness :
    ((tick randC6 5 stC6good).map (fun u => u.scoreP1) = some (stC6good.scoreP1 + 5) ∧
     (tick randC6 5 stC6good).map (fun u => u.pacmanFrozen) = some 0 ∧
     (tick randC6 5 stC6good).map (fun u => u.deadP1) = some false ∧
     (tick randC6 5 stC6good).map (fun u => u.gameOver) = some false ∧
     (tick randC6 5 stC6good).map (fun u => decide (GEvent.agentConsumed ∈ u.events)) = some true ∧
     (tick randC6 5 stC6good).map
        (fun u => u.pacman.map fun p =>
          checkCollision p (stC6good.snake1 ++ [stC6good.food] ++ puList stC6good.powerup)) =
      some (some false)) :=
  C6_amended randC6 5 stC6good ⟨5, 5⟩ [⟨5, 4⟩, ⟨6, 4⟩, ⟨7, 4⟩, ⟨7, 5⟩, ⟨7, 6⟩, ⟨6, 6⟩, ⟨5, 6⟩]
    ⟨6, 5⟩ (by decide) (by decide) (by decide) (by decide) (by decide) (by decide) (by decide)
    (by decide) (by decide) (by decide) (by decide) (by decide)

/-- C10: the ghost timer is a single shared field, not one per snake —
(i) player 1 collecting a GHOST powerup sets it to `GHOST_DURATION`,
(ii) player 2 collecting a GHOST powerup sets the very same timer to
`GHOST_DURATION`, and (iii) whenever that one timer is active during a
two-player move, both snakes' collision checks are suppressed: neither death
flag can be set, whatever the bodies and heads are. -/
theorem C10_sharedGhost :
    (∀ (r : Rand) (fuel : ℕ) (s : GameState) (h1 : Point) (t : List Point) (pu : Powerup),
      s.mode = GameMode.PVP →
      s.snake1 = h1 :: t →
      checkCollision (nextHead h1 s.nextDir1) s.snake1 = false →
      checkCollision (nextHead h1 s.nextDir1) s.snake2 = false →
      nextHead h1 s.nextDir1 ≠ s.food →
      s.powerup = some pu →
      pu.type = PowerupType.GHOST →
      (nextHead h1 s.nextDir1).x = pu.x ∧ (nextHead h1 s.nextDir1).y = pu.y →
      (tick r fuel s).isSome = true →
      (tick r fuel s).map (fun u => u.ghostTimer) = some GHOST_DURATION) ∧
    (∀ (r : Rand) (fuel : ℕ) (s : GameState) (h1 : Point) (t1 : List Point)
        (h2 : Point) (t2 : List Point) (pu : Powerup),
      s.mode = GameMode.PVP →
      s.snake1 = h1 :: t1 →
      s.snake2 = h2 :: t2 →
      s.ghostTimer = 0 →
      checkCollision (nextHead h1 s.nextDir1) s.snake1 = false →
      checkCollision (nextHead h1 s.nextDir1) s.snake2 = false →
      nextHead h1 s.nextDir1 ≠ s.food →
      powerupAt s.powerup (nextHead h1 s.nextDir1) = false →
      checkCollision (nextHead h2 s.nextDir2) s.snake2 = false →
      checkCollision (nextHead h2 s.nextDir2)
        ((nextHead h1 s.nextDir1 :: s.snake1).dropLast) = false →
      nextHead h1 s.nextDir1 ≠ nextHead h2 s.nextDir2 →
      nextHead h2 s.nextDir2 ≠ s.food →
      s.powerup = some pu →
      pu.type = PowerupType.GHOST →
      (nextHead h2 s.nextDir2).x = pu.x ∧ (nextHead h2 s.nextDir2).y = pu.y →
      (tick r fuel s).isSome = true →
      (tick r fuel s).map (fun u => u.ghostTimer) = some GHOST_DURATION) ∧
    (∀ (r : Rand) (fuel : ℕ) (s : GameState),
      s.mode = GameMode.PVP →
      1 < s.ghostTimer →
      (tick r fuel s).isSome = true →
      (tick r fuel s).map (fun u => (u.deadP1, u.deadP2)) = some (false, false)) := by
  refine ⟨?_, ?_, ?_⟩
  · intro r fuel s h1 t pu hmode hs1 hc1 hc2 hfood hpu hty hat hsome
    obtain ⟨x, hx⟩ := Option.isSome_iff_exists.mp hsome
    have hx' : movePhase r fuel (tickTimers s) = some x := hx
    obtain ⟨h1', t', q1, q2, q3, hsnake, hq1, hq2, hq3, rfl⟩ :=
      movePhase_decomp r fuel (tickTimers s) x hx'
    rw [tickTimers_snake1, hs1] at hsnake
    injection hsnake with e1 e2
    subst e1
    subst e2
    rw [tickTimers_nextDir1] at hq1 hq2
    have hcoll := phaseP1_powerup r fuel (nextHead h1 s.nextDir1)
      (commitState (tickTimers s)) 0 pu
      (by show (tickTimers s).mode ≠ _
          rw [tickTimers_mode, hmode]
          decide)
      (by show checkCollision _ (tickTimers s).snake1 = false
          rw [tickTimers_snake1]
          exact hc1)
      (by show checkCollision _ (tickTimers s).snake2 = false
          rw [tickTimers_snake2]
          exact hc2)
      (by show nextHead h1 s.nextDir1 ≠ (tickTimers s).food
          rw [tickTimers_food]
          exact hfood)
      (by show (tickTimers s).powerup = some pu
          rw [tickTimers_powerup]
          exact hpu)
      hat
    rw [hcoll] at hq1
    have hq1eq := Option.some.inj hq1
    have hg1 : q1.1.ghostTimer = GHOST_DURATION := by
      rw [← hq1eq]
      show (applyPowerup1 pu _).ghostTimer = _
      exact applyPowerup1_ghost_of_GHOST pu _ hty
    have hpu1 : q1.1.powerup = none := by
      rw [← hq1eq]
    obtain ⟨-, -, hm2pres, -, -, -, -, hg2pres⟩ := phaseP2_frame r fuel _ _ _ q2 hq2
    have hg2 : q2.1.ghostTimer = GHOST_DURATION := by
      rw [hg2pres hpu1]
      exact hg1
    have hmq2 : q2.1.mode ≠ GameMode.PVC := by
      rw [hm2pres, ← hq1eq]
      show (applyPowerup1 pu _).mode ≠ _
      rw [applyPowerup1_mode]
      show (tickTimers s).mode ≠ _
      rw [tickTimers_mode, hmode]
      decide
    rw [phaseAI_notPVC r fuel _ _ hmq2] at hq3
    have hq3eq := Option.some.inj hq3
    rw [hx]
    simp only [Option.map_some', phaseEnd_ghostTimer]
    rw [← hq3eq]
    exact congrArg some hg2
  · intro r fuel s h1 t1 h2 t2 pu hmode hs1 hs2 hg hc1 hc2 hfood1 hpuAt1 hc22 hc21
      hneq hfood2 hpu hty hat hsome
    obtain ⟨x, hx⟩ := Option.isSome_iff_exists.mp hsome
    have hx' : movePhase r fuel (tickTimers s) = some x := hx
    obtain ⟨h1', t', q1, q2, q3, hsnake, hq1, hq2, hq3, rfl⟩ :=
      movePhase_decomp r fuel (tickTimers s) x hx'
    rw [tickTimers_snake1, hs1] at hsnake
    injection hsnake with e1 e2
    subst e1
    subst e2
    rw [tickTimers_nextDir1] at hq1 hq2
    have hplain := phaseP1_plain r fuel (nextHead h1 s.nextDir1)
      (commitState (tickTimers s)) 0
      (by show (tickTimers s).mode ≠ _
          rw [tickTimers_mode, hmode]
          decide)
      (by show checkCollision _ (tickTimers s).snake1 = false
          rw [tickTimers_snake1]
          exact hc1)
      (by show checkCollision _ (tickTimers s).snake2 = false
          rw [tickTimers_snake2]
          exact hc2)
      (by show nextHead h1 s.nextDir1 ≠ (tickTimers s).food
          rw [tickTimers_food]
          exact hfood1)
      (by show powerupAt (tickTimers s).powerup _ = false
          rw [tickTimers_powerup]
          exact hpuAt1)
    rw [hplain] at hq1
    have hq1eq := Option.some.inj hq1
    have hm1 : q1.1.mode = GameMode.PVP := by
      rw [← hq1eq]
      show (tickTimers s).mode = _
      rw [tickTimers_mode]
      exact hmode
    have hsn2 : q1.1.snake2 = h2 :: t2 := by
      rw [← hq1eq]
      show (tickTimers s).snake2 = _
      rw [tickTimers_snake2]
      exact hs2
    have hg1 : q1.1.ghostTimer = 0 := by
      rw [← hq1eq]
      show (tickTimers s).ghostTimer = 0
      exact tickTimers_ghost_of_zero s hg
    have hd21 : q1.1.dir2 = s.nextDir2 := by
      rw [← hq1eq]
      show (commitState (tickTimers s)).dir2 = s.nextDir2
      rw [commitState_dir2_pvp _ (by rw [tickTimers_mode]; exact hmode), tickTimers_nextDir2]
    have hsn1 : q1.1.snake1 = (nextHead h1 s.nextDir1 :: s.snake1).dropLast := by
      rw [← hq1eq]
      show (nextHead h1 s.nextDir1 :: (commitState (tickTimers s)).snake1).dropLast = _
      rw [commitState_snake1, tickTimers_snake1]
    have hfood1' : q1.1.food = s.food := by
      rw [← hq1eq]
      show (tickTimers s).food = _
      exact tickTimers_food s
    have hpu1 : q1.1.powerup = some pu := by
      rw [← hq1eq]
      show (tickTimers s).powerup = _
      rw [tickTimers_powerup]
      exact hpu
    obtain ⟨-, -, hm2pres, -, -, -, -, -⟩ := phaseP2_frame r fuel _ _ _ q2 hq2
    have hcoll2 := phaseP2_powerup r fuel (nextHead h1 s.nextDir1) q1.1 q1.2 h2 t2 pu
      hm1 hsn2 hg1
      (by rw [hd21, hsn2, ← hs2]
          exact hc22)
      (by rw [hd21, hsn1]
          exact hc21)
      (by rw [hd21]
          exact hneq)
      (by rw [hd21, hfood1']
          exact hfood2)
      hpu1
      (by rw [hd21]
          exact hat)
    rw [hcoll2] at hq2
    have hq2eq := Option.some.inj hq2
    have hg2 : q2.1.ghostTimer = GHOST_DURATION := by
      rw [← hq2eq]
      show (applyPowerup2 pu _).ghostTimer = _
      exact applyPowerup2_ghost_of_GHOST pu _ hty
    rw [phaseAI_notPVC r fuel _ _ (by
      rw [hm2pres, hm1]
      decide)] at hq3
    have hq3eq := Option.some.inj hq3
    rw [hx]
    simp only [Option.map_some', phaseEnd_ghostTimer]
    rw [← hq3eq]
    exact congrArg some hg2
  · intro r fuel s hmode hg hsome
    obtain ⟨x, hx⟩ := Option.isSome_iff_exists.mp hsome
    have hx' : movePhase r fuel (tickTimers s) = some x := hx
    obtain ⟨h1, t, q1, q2, q3, hsnake, hq1, hq2, hq3, rfl⟩ :=
      movePhase_decomp r fuel (tickTimers s) x hx'
    have hgc : ¬ (commitState (tickTimers s)).ghostTimer = 0 := by
      show ¬ (tickTimers s).ghostTimer = 0
      exact tickTimers_ghost_ne_zero s hg
    obtain ⟨hdp1, hgq1, hmq1, -, -, -⟩ := phaseP1_ghostOut r fuel _ _ 0 q1 hq1 hgc
      (by show (tickTimers s).mode ≠ _
          rw [tickTimers_mode, hmode]
          decide)
    obtain ⟨hdp1', hdp2'⟩ := phaseP2_ghostOut r fuel _ _ _ q2 hq2 hgq1
      (by rw [hmq1]
          show (tickTimers s).mode = _
          rw [tickTimers_mode]
          exact hmode)
    obtain ⟨-, -, hm2pres, -, -, -, -, -⟩ := phaseP2_frame r fuel _ _ _ q2 hq2
    rw [phaseAI_notPVC r fuel _ _ (by
      rw [hm2pres, hmq1]
      show (tickTimers s).mode ≠ _
      rw [tickTimers_mode, hmode]
      decide)] at hq3
    have hq3eq := Option.some.inj hq3
    rw [hx]
    simp only [Option.map_some', Option.some.injEq]
    rw [← hq3eq]
    show ((phaseEnd q2.1).deadP1, (phaseEnd q2.1).deadP2) = (false, false)
    rw [phaseEnd_deadP1, phaseEnd_deadP2, hdp1', hdp2', hdp1]
    show ((commitState (tickTimers s)).deadP1, false) = _
    rw [commitState_deadP1]

theorem C10_witness :
    ((tick randZero 5 stC10a).map (fun u => u.ghostTimer) = some GHOST_DURATION ∧
     (tick randZero 5 stC10b).map (fun u => u.ghostTimer) = some GHOST_DURATION ∧
     (tick randZero 5 stC2).map (fun u => (u.deadP1, u.deadP2)) = some (false, false)) :=
  ⟨C10_sharedGhost.1 randZero 5 stC10a ⟨5, 5⟩ [⟨5, 6⟩] ⟨5, 4, PowerupType.GHOST⟩
      (by decide) (by decide) (by decide) (by decide) (by decide) (by decide) (by decide)
      (by decide) (by decide),
   C10_sharedGhost.2.1 randZero 5 stC10b ⟨5, 5⟩ [⟨5, 6⟩] ⟨15, 15⟩ [⟨15, 16⟩]
      ⟨15, 14, PowerupType.GHOST⟩
      (by decide) (by decide) (by decide) (by decide) (by decide) (by decide) (by decide)
      (by decide) (by decide) (by decide) (by decide) (by decide) (by decide) (by decide)
      (by decide) (by decide),
   C10_sharedGhost.2.2 randZero 5 stC2 (by decide) (by decide) (by decide)⟩

end SnakeGame
